import Mathlib

/-!
# AgenteAspiradora: the browser-side viewer (`static/js/main.js`)

A shallow embedding of `renderState`, `updateBattery`, `updateStatus` and of the
polling controller set up in the `DOMContentLoaded` handler.

Modelling conventions.

* A snapshot is the value obtained from `JSON.parse`.  Its fields are typed after the
  data model: counts are `Nat`, the robot coordinates are `Int`, optional fields are
  `Option`.  The grid is a list of rows of cell kinds; nothing
  constrains its shape, so a grid smaller than `rows` x `cols` is a value of the type.
* The document is a record of the named display regions, each of them optional
  (`document.getElementById` returns `null` for an absent region).
* A JavaScript exception is a value of `JsError`.  A function that can throw returns
  the document as it stands at the throw together with the error.
* `progress` and `battery_level` are Numbers.  A finite Number is given by its exact
  rational value; the product `state.progress * 100` is rounded to binary64
  (`roundDouble`, `toNumber`), `toFixed(1)` follows ECMAScript, exponent form from
  `10^21` on included, and a Number in a template literal prints by `Number::toString`
  (`numberToString`).
-/

namespace AgenteAspiradora

/-! ## Snapshot -/

/-- The `environment` object of a snapshot. -/
structure Environment where
  rows : Nat
  cols : Nat
  grid : List (List String)
  robot_position : Int × Int
  dirty_cells : Nat
deriving DecidableEq, Repr

/-- The `agent` object of a snapshot. -/
structure Agent where
  orientation : String
  battery_level : ℚ
deriving DecidableEq, Repr

/-- The `last_perception` object; every key may be missing. -/
structure Perception where
  battery : Option String
  front_obstacle : Option Bool
  on_dirt : Option Bool
  on_base : Option Bool
deriving DecidableEq, Repr

/-- A simulation snapshot as served by `/step_json`. -/
structure Snapshot where
  environment : Environment
  agent : Agent
  step_count : Nat
  progress : ℚ
  last_action : Option String
  last_perception : Option Perception
  done : Bool
deriving DecidableEq

/-- An exception raised while the script runs. -/
inductive JsError where
  | typeError (msg : String)
deriving DecidableEq, Repr

/-! ## Status classifier (`updateStatus`, lines 133-169) -/

/-- The expression `state.last_perception || {}`: an absent record reads as the
object without keys. -/
def percOrEmpty (p : Option Perception) : Perception :=
  match p with
  | some q => q
  | none => ⟨none, none, none, none⟩

/-- The expression `x || d` for an optional string `x`: an absent or empty string is
falsy and gives `d`. -/
def strOr (x : Option String) (d : String) : String :=
  match x with
  | some s => if s = "" then d else s
  | none => d

/-- The expression `!!perc.on_base`. -/
def truthyFlag (b : Option Bool) : Bool :=
  match b with
  | some v => v
  | none => false

/-- Lines 137-165 of `updateStatus`: the banner text and its gradient. -/
def statusLabel (state : Snapshot) : String × String :=
  let perc := percOrEmpty state.last_perception
  let batteryLevel := state.agent.battery_level
  let done := state.done
  let lastAction := strOr state.last_action ""
  let onBase := truthyFlag perc.on_base
  let batteryLabel := strOr perc.battery "high"
  if done then
    ("✔ Habitación limpia", "linear-gradient(90deg, #22c55e, #16a34a)")
  else if batteryLevel ≤ 0 then
    ("⚠ Sin batería", "linear-gradient(90deg, #ef4444, #b91c1c)")
  else if onBase && decide (batteryLevel < 100) then
    ("🔌 Cargando en base", "linear-gradient(90deg, #0f766e, #22c55e)")
  else if decide (batteryLabel = "low") && !onBase then
    ("🪫 Buscando la base", "linear-gradient(90deg, #f97316, #ef4444)")
  else if lastAction = "clean" then
    ("🧽 Limpiando", "linear-gradient(90deg, #0ea5e9, #22c55e)")
  else
    ("🚗 Recorriendo la habitación", "linear-gradient(90deg, #1d4ed8, #6366f1)")

/-! ## Grid renderer (lines 16-42) -/

/-- Lines 20-38: the class list and the glyph of the cell at `(r, c)`.  `cell` is the
value read from `env.grid[r][c]`, `none` when the row has no such index
(`undefined`). -/
def cellStyle (robotRow robotCol : Int) (r c : Nat) (cell : Option String) :
    String × String :=
  if (r : Int) = robotRow ∧ (c : Int) = robotCol then
    ("cell " ++ "robot ", "🧹")
  else if cell = some "WALL" then
    ("cell " ++ "wall ", "🧱")
  else if cell = some "DIRT" then
    ("cell " ++ "dirt ", "🟫")
  else if cell = some "BASE" then
    ("cell " ++ "base ", "🔌")
  else
    ("cell " ++ "empty ", "⬜")

/-- Line 40: the markup of one cell. -/
def cellDiv (cls : String × String) : String :=
  "<div class=\"" ++ cls.1 ++ "\">" ++ cls.2 ++ "</div>"

/-- One iteration of the inner loop (lines 19-40).  Reading `env.grid[r][c]` throws a
`TypeError` when `env.grid[r]` is `undefined`; an index past the end of an existing
row reads `undefined` without throwing. -/
def renderCell (env : Environment) (r : Nat) (html : String) (c : Nat) :
    Except JsError String :=
  match env.grid[r]? with
  | none => Except.error (JsError.typeError "Cannot read properties of undefined")
  | some row =>
    let cell := row[c]?
    Except.ok (html ++ cellDiv (cellStyle env.robot_position.1 env.robot_position.2 r c cell))

/-- The inner loop `for (let c = 0; c < env.cols; c++)`. -/
def renderRow (env : Environment) (html : String) (r : Nat) : Except JsError String :=
  (List.range env.cols).foldlM (renderCell env r) html

/-- The outer loop `for (let r = 0; r < env.rows; r++)`, started from `html = ""`. -/
def renderGrid (env : Environment) : Except JsError String :=
  (List.range env.rows).foldlM (renderRow env) ""

/-! ## Numbers -/

/-- The power `2^k` for an integer exponent. -/
def pow2 (k : Int) : ℚ :=
  if 0 ≤ k then ((2 ^ k.toNat : Nat) : ℚ) else 1 / ((2 ^ (-k).toNat : Nat) : ℚ)

/-- The integer nearest to `x`, the even one on a tie. -/
def roundHalfEven (x : ℚ) : Int :=
  let f := ⌊x⌋
  if x - f < 1 / 2 then f
  else if 1 / 2 < x - f then f + 1
  else if f % 2 = 0 then f else f + 1

/-- Binary logarithm of a natural number, rounded down, by halving at most `fuel`
times. -/
def log2Fuel : Nat → Nat → Nat
  | 0, _ => 0
  | fuel + 1, n => if n < 2 then 0 else log2Fuel fuel (n / 2) + 1

/-- Binary logarithm of a natural number, rounded down (0 for 0). -/
def natLog2 (n : Nat) : Nat := log2Fuel n n

/-- The exponent `k` with `2^k <= |x| < 2^(k+1)`, for `x` other than 0. -/
def floorLog2 (x : ℚ) : Int :=
  let k : Int := (natLog2 x.num.natAbs : Int) - (natLog2 x.den : Int)
  if pow2 k ≤ |x| then k else k - 1

/-- The binary64 value nearest to `x`, ties to the even significand: 53 significant
bits, least exponent -1074.  The exponent is not bounded above here; `toNumber` maps
what exceeds the binary64 range to an infinity. -/
def roundDouble (x : ℚ) : ℚ :=
  if x = 0 then 0
  else
    let e : Int := max (floorLog2 x - 52) (-1074)
    (roundHalfEven (x / pow2 e) : ℚ) * pow2 e

/-- A Number that an arithmetic operation on JSON numbers can give: a finite value or
an infinity. -/
inductive JsNumber where
  | finite (q : ℚ)
  | posInfinity
  | negInfinity
deriving DecidableEq

/-- The Number for the real value `x`: the nearest binary64 value, an infinity once
the rounded magnitude reaches `2^1024`. -/
def toNumber (x : ℚ) : JsNumber :=
  let r := roundDouble x
  if pow2 1024 ≤ r then JsNumber.posInfinity
  else if r ≤ -pow2 1024 then JsNumber.negInfinity
  else JsNumber.finite r

/-- The product `a * b` of two finite Numbers. -/
def jsMul (a b : ℚ) : JsNumber := toNumber (a * b)

/-- The call `Math.min(a, b)`. -/
def jsMin (a b : JsNumber) : JsNumber :=
  match a, b with
  | JsNumber.negInfinity, _ => JsNumber.negInfinity
  | _, JsNumber.negInfinity => JsNumber.negInfinity
  | JsNumber.posInfinity, y => y
  | x, JsNumber.posInfinity => x
  | JsNumber.finite x, JsNumber.finite y => JsNumber.finite (min x y)

/-- The call `Math.max(a, b)`. -/
def jsMax (a b : JsNumber) : JsNumber :=
  match a, b with
  | JsNumber.posInfinity, _ => JsNumber.posInfinity
  | _, JsNumber.posInfinity => JsNumber.posInfinity
  | JsNumber.negInfinity, y => y
  | x, JsNumber.negInfinity => x
  | JsNumber.finite x, JsNumber.finite y => JsNumber.finite (max x y)

/-- The pairs `(s, n)` of `Number::toString` with `k` digits: `s` has `k` digits and
`s * 10^(n-k)` reads back as `x`. -/
def digitCandidates (x : ℚ) (k : Nat) : List (Nat × Nat) :=
  let N : Nat := ⌊x⌋.toNat
  let nd : Nat := (Nat.toDigits 10 N).length
  [nd, nd + 1].flatMap (fun n =>
    let p := 10 ^ (n - k)
    [N / p, N / p + 1].filterMap (fun s =>
      if 10 ^ (k - 1) ≤ s ∧ s < 10 ^ k ∧ roundDouble ((s * p : Nat) : ℚ) = x then some (s, n)
      else none))

/-- Of two candidates with `k` digits, the one whose value is closer to `x`. -/
def closest (x : ℚ) (k : Nat) (best : Option (Nat × Nat)) (c : Nat × Nat) :
    Option (Nat × Nat) :=
  match best with
  | none => some c
  | some b =>
    if |((c.1 * 10 ^ (c.2 - k) : Nat) : ℚ) - x| < |((b.1 * 10 ^ (b.2 - k) : Nat) : ℚ) - x|
    then some c
    else some b

/-- The digits `s` and the exponent `n` of `Number::toString` for a binary64 value
`x >= 10^21`: as few digits as read back as `x`, and among those the closest to `x`. -/
def shortestDigits (x : ℚ) : Nat × Nat :=
  let found := (List.range 17).filterMap (fun k0 =>
    (digitCandidates x (k0 + 1)).foldl (closest x (k0 + 1)) none)
  found.headD (⌊x⌋.toNat, (Nat.toDigits 10 ⌊x⌋.toNat).length)

/-- `Number::toString` for a binary64 value `x >= 10^21`: the exponent form
`d.ddde+n`, or `de+n` for a single digit. -/
def expForm (x : ℚ) : String :=
  let sn := shortestDigits x
  match Nat.toDigits 10 sn.1 with
  | [] => ""
  | [c] => String.mk [c] ++ "e+" ++ toString (sn.2 - 1)
  | c :: rest => String.mk (c :: '.' :: rest) ++ "e+" ++ toString (sn.2 - 1)

/-- `Number.prototype.toFixed(1)`.  An infinity prints by name.  For a finite value the
sign is split off; a magnitude of `10^21` or more prints in exponent form; otherwise
`n` is the integer nearest to ten times the magnitude (the larger one on a tie) and
the last digit of `n` goes after the point. -/
def toFixed1 (x : JsNumber) : String :=
  match x with
  | JsNumber.posInfinity => "Infinity"
  | JsNumber.negInfinity => "-Infinity"
  | JsNumber.finite q =>
    let a : ℚ := if q < 0 then -q else q
    let sign := if q < 0 then "-" else ""
    if (10 : ℚ) ^ 21 ≤ a then sign ++ expForm a
    else
      let n : Nat := ⌊a * 10 + 1 / 2⌋.toNat
      sign ++ toString (n / 10) ++ "." ++ toString (n % 10)

/-- The power `10^k` for an integer exponent. -/
def pow10 (k : Int) : ℚ :=
  if 0 ≤ k then ((10 ^ k.toNat : Nat) : ℚ) else 1 / ((10 ^ (-k).toNat : Nat) : ℚ)

/-- The exponent `n` with `10^(n-1) <= x < 10^n`, for `x > 0`. -/
def decimalExponent (x : ℚ) : Int :=
  let k : Int := ((Nat.toDigits 10 x.num.natAbs).length : Int) -
    ((Nat.toDigits 10 x.den).length : Int)
  if pow10 k ≤ x then k + 1 else k

/-- The pairs `(s, n)` of `Number::toString` with `k` digits, for any `x > 0`: `s` has
`k` digits and `s * 10^(n-k)` reads back as `x`. -/
def decimalCandidates (x : ℚ) (k : Nat) : List (Nat × Int) :=
  let n0 := decimalExponent x
  [n0, n0 + 1].flatMap (fun n =>
    let scale := pow10 (n - k)
    [⌊x / scale⌋.toNat, ⌊x / scale⌋.toNat + 1].filterMap (fun (s : Nat) =>
      if 10 ^ (k - 1) ≤ s ∧ s < 10 ^ k ∧ roundDouble ((s : ℚ) * scale) = x then some (s, n)
      else none))

/-- Of two candidates with `k` digits, the one whose value is closer to `x`. -/
def closerDecimal (x : ℚ) (k : Nat) (best : Option (Nat × Int)) (c : Nat × Int) :
    Option (Nat × Int) :=
  match best with
  | none => some c
  | some b =>
    if |(c.1 : ℚ) * pow10 (c.2 - k) - x| < |(b.1 : ℚ) * pow10 (b.2 - k) - x| then some c
    else some b

/-- The digits `s` and the exponent `n` of `Number::toString` for a binary64 value
`x > 0`: as few digits as read back as `x` (17 always do), and among those the closest
to `x`. -/
def shortestDecimal (x : ℚ) : Nat × Int :=
  let found := (List.range 17).filterMap (fun k0 =>
    (decimalCandidates x (k0 + 1)).foldl (closerDecimal x (k0 + 1)) none)
  found.headD (⌊x / pow10 (decimalExponent x - 17)⌋.toNat, decimalExponent x)

/-- The text of `Number::toString` for the digits `s` (there are `k` of them) and the
exponent `n`: plain digits with trailing zeros, a decimal point inside the digits,
leading `0.0...`, or the exponent form. -/
def layoutDecimal (digits : List Char) (n : Int) : String :=
  let k : Int := digits.length
  if k ≤ n ∧ n ≤ 21 then
    String.mk (digits ++ List.replicate (n - k).toNat '0')
  else if 0 < n ∧ n ≤ 21 then
    String.mk (digits.take n.toNat ++ '.' :: digits.drop n.toNat)
  else if -6 < n ∧ n ≤ 0 then
    String.mk ('0' :: '.' :: (List.replicate (-n).toNat '0' ++ digits))
  else
    let e := n - 1
    let exponent := (if e < 0 then "e-" else "e+") ++ toString e.natAbs
    match digits with
    | [] => ""
    | [c] => String.mk [c] ++ exponent
    | c :: rest => String.mk (c :: '.' :: rest) ++ exponent

/-- `Number::toString` of a finite Number, as in the template literal of lines 119 and
130: "0" for zero, a minus sign and the text of the magnitude for a negative value. -/
def numberToString (x : ℚ) : String :=
  if x = 0 then "0"
  else
    let a : ℚ := if x < 0 then -x else x
    let sn := shortestDecimal a
    (if x < 0 then "-" else "") ++ layoutDecimal (Nat.toDigits 10 sn.1) sn.2

/-! ## The document -/

/-- The element `#grid`: the two properties the script writes. -/
structure GridDiv where
  gridTemplateColumns : String
  innerHTML : String
deriving DecidableEq, Repr

/-- The element `#battery-level`: `style.width` and the class list. -/
structure BatteryBar where
  width : String
  classList : List String
deriving DecidableEq, Repr

/-- The element `#agent-status`: `textContent` and `style.backgroundImage`. -/
structure StatusDiv where
  textContent : String
  backgroundImage : String
deriving DecidableEq, Repr

/-- The named regions of the page.  A region is `none` when the page has no element of
that id.  A text region holds its `textContent`; `progressBar` holds the number `p` of
the width `p%`. -/
structure Dom where
  grid : Option GridDiv
  stepCount : Option String
  orientation : Option String
  progress : Option String
  lastAction : Option String
  dirtyRemaining : Option String
  progressBar : Option JsNumber
  percBattery : Option String
  percFront : Option String
  percDirt : Option String
  percBase : Option String
  batteryLevel : Option BatteryBar
  batteryText : Option String
  agentStatus : Option StatusDiv
  btnStep : Option String
  btnAuto : Option String
deriving DecidableEq

/-- The guarded assignment `if (el) el.textContent = v`. -/
def setText (el : Option String) (v : String) : Option String :=
  el.map (fun _ => v)

/-! ## Panel renderer (lines 45-105) -/

/-- Lines 84-88 (and 92-96, 100-104): the readout of one perception key. -/
def flagText (flag : Option Bool) : String :=
  match flag with
  | some v => if v then "Sí" else "No"
  | none => "-"

/-- Lines 45-105: the scalar readouts, the progress bar and the perception readouts.
The assignments go to distinct elements, each under its own null test. -/
def renderPanel (state : Snapshot) (d : Dom) : Dom :=
  let env := state.environment
  let perc := percOrEmpty state.last_perception
  { d with
    stepCount := setText d.stepCount (toString state.step_count)
    orientation := setText d.orientation state.agent.orientation
    dirtyRemaining := setText d.dirtyRemaining (toString env.dirty_cells)
    progress := setText d.progress (toFixed1 (jsMul state.progress 100) ++ "%")
    lastAction := setText d.lastAction (strOr state.last_action "-")
    progressBar := d.progressBar.map (fun _ =>
      jsMax (JsNumber.finite 0) (jsMin (JsNumber.finite 100) (jsMul state.progress 100)))
    percBattery := setText d.percBattery (strOr perc.battery "-")
    percFront := setText d.percFront (flagText perc.front_obstacle)
    percDirt := setText d.percDirt (flagText perc.on_dirt)
    percBase := setText d.percBase (flagText perc.on_base) }

/-! ## Battery widget (`updateBattery`, lines 114-131) -/

/-- `classList.remove("low", "medium", "high")`. -/
def removeBands (classList : List String) : List String :=
  classList.filter (fun k => !(k == "low" || k == "medium" || k == "high"))

/-- `classList.add(token)`: a token already in the list is not added again. -/
def classAdd (classList : List String) (token : String) : List String :=
  if token ∈ classList then classList else classList ++ [token]

/-- Lines 122-128: the band of a level. -/
def batteryBand (level : ℚ) : String :=
  if level ≤ 20 then "low" else if level ≤ 60 then "medium" else "high"

/-- The function `updateBattery`: nothing is written unless both `#battery-level` and
`#battery-text` exist (line 117). -/
def updateBattery (level : ℚ) (d : Dom) : Dom :=
  match d.batteryLevel, d.batteryText with
  | some bar, some _ =>
    { d with
      batteryLevel := some
        { width := numberToString level ++ "%"
          classList := classAdd (removeBands bar.classList) (batteryBand level) }
      batteryText := some (numberToString level ++ "%") }
  | _, _ => d

/-- The function `updateStatus`: nothing is written when `#agent-status` is absent
(line 135). -/
def updateStatus (state : Snapshot) (d : Dom) : Dom :=
  match d.agentStatus with
  | none => d
  | some _ =>
    let label := statusLabel state
    { d with agentStatus := some { textContent := label.1, backgroundImage := label.2 } }

/-! ## View coordinator (`renderState`, lines 3-112) -/

/-- What a call leaves behind: the document, and the exception if one was thrown. -/
structure Outcome where
  dom : Dom
  error : Option JsError
deriving DecidableEq

/-- The function `renderState`.  It returns at once when `#grid` is absent (line 6).
The column template is written before the loops run (line 13); `innerHTML` is written
after them (line 43), so a throw inside the loops leaves the template written and
everything else as it was. -/
def renderState (state : Snapshot) (d : Dom) : Outcome :=
  let env := state.environment
  match d.grid with
  | none => ⟨d, none⟩
  | some gridDiv =>
    let gridDiv1 : GridDiv :=
      { gridDiv with gridTemplateColumns := "repeat(" ++ toString env.cols ++ ", 1fr)" }
    match renderGrid env with
    | Except.error e => ⟨{ d with grid := some gridDiv1 }, some e⟩
    | Except.ok html =>
      let d1 : Dom := { d with grid := some { gridDiv1 with innerHTML := html } }
      ⟨updateStatus state (updateBattery state.agent.battery_level (renderPanel state d1)), none⟩

/-! ## Polling controller (lines 171-233) -/

/-- A handle returned by `setInterval`: an integer greater than zero, so a held handle
is truthy in `if (intervalId)`. -/
structure TimerId where
  val : Nat
  pos : 0 < val
deriving DecidableEq

/-- A live interval timer of the window: its handle and its period in milliseconds. -/
structure Timer where
  id : TimerId
  period : Nat
deriving DecidableEq

/-- What reaches the `.catch` of a step request. -/
inductive Failure where
  | rejected (reason : String)
  | undecodable (reason : String)
  | thrown (e : JsError)
deriving DecidableEq

/-- A line written by `console.error`. -/
structure LogEntry where
  msg : String
  err : Failure
deriving DecidableEq

/-- How a `fetch("/step_json")` settles: the promise rejects, or a response arrives
whose body `r.json()` either fails to decode or decodes to a snapshot. -/
inductive FetchResult where
  | rejected (reason : String)
  | undecodable (reason : String)
  | json (newState : Snapshot)
deriving DecidableEq

/-- The variables of the `DOMContentLoaded` closure together with what they act on:
`state`, the document, `autoRunning`, `intervalId`, the window's live interval timers,
the last handle the window gave out, the number of step requests in flight and the
console. -/
structure Controller where
  state : Snapshot
  dom : Dom
  autoRunning : Bool
  intervalId : Option TimerId
  timers : List Timer
  lastHandle : Nat
  pending : Nat
  console : List LogEntry
deriving DecidableEq

/-- The call `clearInterval(id)`. -/
def clearInterval (id : TimerId) (timers : List Timer) : List Timer :=
  timers.filter (fun t => decide (t.id ≠ id))

/-- The function `stopAuto` (lines 185-192). -/
def stopAuto (ctl : Controller) : Controller :=
  let ctl1 : Controller :=
    { ctl with
      autoRunning := false
      dom := { ctl.dom with btnAuto := setText ctl.dom.btnAuto "▶️ Auto" } }
  match ctl1.intervalId with
  | some id => { ctl1 with timers := clearInterval id ctl1.timers, intervalId := none }
  | none => ctl1

/-- The handler `.catch((err) => console.error("Error en step_json:", err))`. -/
def logFailure (err : Failure) (ctl : Controller) : Controller :=
  { ctl with console := ctl.console ++ [⟨"Error en step_json:", err⟩] }

/-- The continuation of the manual step (lines 198-205).  An exception thrown by
`renderState` rejects the promise: the terminal test is not reached and the `.catch`
of line 206 logs it. -/
def stepThen (newState : Snapshot) (ctl : Controller) : Controller :=
  let ctl1 : Controller := { ctl with state := newState }
  let out := renderState ctl1.state ctl1.dom
  let ctl2 : Controller := { ctl1 with dom := out.dom }
  match out.error with
  | some e => logFailure (Failure.thrown e) ctl2
  | none =>
    if ctl2.state.done || decide (ctl2.state.agent.battery_level ≤ 0) then stopAuto ctl2
    else ctl2

/-- The continuation of a timer tick (lines 219-226), the same text as lines
198-205. -/
def tickThen (newState : Snapshot) (ctl : Controller) : Controller :=
  let ctl1 : Controller := { ctl with state := newState }
  let out := renderState ctl1.state ctl1.dom
  let ctl2 : Controller := { ctl1 with dom := out.dom }
  match out.error with
  | some e => logFailure (Failure.thrown e) ctl2
  | none =>
    if ctl2.state.done || decide (ctl2.state.agent.battery_level ≤ 0) then stopAuto ctl2
    else ctl2

/-- The promise chain of the manual step (lines 196-206) once its request settles. -/
def stepSettled (res : FetchResult) (ctl : Controller) : Controller :=
  let ctl1 : Controller := { ctl with pending := ctl.pending - 1 }
  match res with
  | FetchResult.rejected reason => logFailure (Failure.rejected reason) ctl1
  | FetchResult.undecodable reason => logFailure (Failure.undecodable reason) ctl1
  | FetchResult.json newState => stepThen newState ctl1

/-- The promise chain of a timer tick (lines 217-227) once its request settles. -/
def tickSettled (res : FetchResult) (ctl : Controller) : Controller :=
  let ctl1 : Controller := { ctl with pending := ctl.pending - 1 }
  match res with
  | FetchResult.rejected reason => logFailure (Failure.rejected reason) ctl1
  | FetchResult.undecodable reason => logFailure (Failure.undecodable reason) ctl1
  | FetchResult.json newState => tickThen newState ctl1

/-- A click on `#btn-step` (line 195): one request is sent.  Without the button no
listener was registered (line 194). -/
def btnStepClick (ctl : Controller) : Controller :=
  match ctl.dom.btnStep with
  | none => ctl
  | some _ => { ctl with pending := ctl.pending + 1 }

/-- The interval timer `id` fires (line 216): its callback sends one request.  A timer
that is not live does not fire. -/
def timerFire (id : TimerId) (ctl : Controller) : Controller :=
  if ctl.timers.any (fun t => decide (t.id = id)) then
    { ctl with pending := ctl.pending + 1 }
  else ctl

/-- A click on `#btn-auto` (lines 211-232).  Without the button no listener was
registered (line 210). -/
def btnAutoClick (ctl : Controller) : Controller :=
  match ctl.dom.btnAuto with
  | none => ctl
  | some _ =>
    let ctl1 : Controller := { ctl with autoRunning := !ctl.autoRunning }
    if ctl1.autoRunning then
      let id : TimerId := ⟨ctl1.lastHandle + 1, Nat.succ_pos _⟩
      { ctl1 with
        dom := { ctl1.dom with btnAuto := some "⏸ Pausar" }
        timers := ctl1.timers ++ [⟨id, 400⟩]
        lastHandle := ctl1.lastHandle + 1
        intervalId := some id }
    else stopAuto ctl1

/-- The `DOMContentLoaded` handler (lines 171-183) on a page whose `#initial-state`
script holds `initial`: the first render, then the closure variables.  An exception in
the first render ends the handler before any listener is registered. -/
def init (d : Dom) (initial : Snapshot) : Option Controller :=
  let out := renderState initial d
  match out.error with
  | some _ => none
  | none => some
    { state := initial, dom := out.dom, autoRunning := false, intervalId := none,
      timers := [], lastHandle := 0, pending := 0, console := [] }

/-- Terminal condition of lines 202 and 223. -/
def terminal (s : Snapshot) : Prop :=
  s.done = true ∨ s.agent.battery_level ≤ 0

instance (s : Snapshot) : Decidable (terminal s) := by
  unfold terminal
  infer_instance

/-! ## The status table as the specification words it -/

/-- The six banner texts, under the names the specification gives them. -/
def labelTaskComplete : String := "✔ Habitación limpia"

/-- Banner text of rule 2. -/
def labelBatteryDepleted : String := "⚠ Sin batería"

/-- Banner text of rule 3. -/
def labelCharging : String := "🔌 Cargando en base"

/-- Banner text of rule 4. -/
def labelSeekingBase : String := "🪫 Buscando la base"

/-- Banner text of rule 5. -/
def labelCleaning : String := "🧽 Limpiando"

/-- Banner text of rule 6. -/
def labelTraversing : String := "🚗 Recorriendo la habitación"

/-- The perception says `on_base == true`. -/
def percOnBase (s : Snapshot) : Prop :=
  ∃ p, s.last_perception = some p ∧ p.on_base = some true

/-- The perception's battery category is "low". -/
def percBatteryLow (s : Snapshot) : Prop :=
  ∃ p, s.last_perception = some p ∧ p.battery = some "low"

instance (s : Snapshot) : Decidable (percOnBase s) :=
  match h : s.last_perception with
  | none => isFalse (by rintro ⟨p, hp, _⟩; rw [h] at hp; cases hp)
  | some p =>
    if hb : p.on_base = some true then isTrue ⟨p, h, hb⟩
    else isFalse (by rintro ⟨q, hq, hq2⟩; rw [h] at hq; cases hq; exact hb hq2)

instance (s : Snapshot) : Decidable (percBatteryLow s) :=
  match h : s.last_perception with
  | none => isFalse (by rintro ⟨p, hp, _⟩; rw [h] at hp; cases hp)
  | some p =>
    if hb : p.battery = some "low" then isTrue ⟨p, h, hb⟩
    else isFalse (by rintro ⟨q, hq, hq2⟩; rw [h] at hq; cases hq; exact hb hq2)

/-- Rules 3 to 6 of the classifier as the specification lists them, first match
wins. -/
def specStatusTable (s : Snapshot) : String :=
  if percOnBase s ∧ s.agent.battery_level < 100 then labelCharging
  else if percBatteryLow s ∧ ¬ percOnBase s then labelSeekingBase
  else if s.last_action = some "clean" then labelCleaning
  else labelTraversing

/-! ## Sample snapshots -/

/-- A 2 x 3 room: a wall, two dirty cells and the base; the robot stands on the dirty
cell `(1, 1)`. -/
def sampleEnv : Environment :=
  { rows := 2
    cols := 3
    grid := [["BASE", "EMPTY", "WALL"], ["DIRT", "DIRT", "EMPTY"]]
    robot_position := (1, 1)
    dirty_cells := 2 }

/-- A snapshot in mid run. -/
def sampleSnapshot : Snapshot :=
  { environment := sampleEnv
    agent := { orientation := "N", battery_level := 57 }
    step_count := 4
    progress := 1 / 4
    last_action := some "clean"
    last_perception := some
      { battery := some "medium", front_obstacle := some false,
        on_dirt := some true, on_base := some false }
    done := false }

/-- A page with every region. -/
def fullDom : Dom :=
  { grid := some { gridTemplateColumns := "", innerHTML := "" }
    stepCount := some "0"
    orientation := some ""
    progress := some ""
    lastAction := some ""
    dirtyRemaining := some ""
    progressBar := some (JsNumber.finite 0)
    percBattery := some ""
    percFront := some ""
    percDirt := some ""
    percBase := some ""
    batteryLevel := some { width := "", classList := ["battery-level", "high"] }
    batteryText := some ""
    agentStatus := some { textContent := "En espera", backgroundImage := "" }
    btnStep := some "Paso"
    btnAuto := some "▶️ Auto" }

/-- A finished run whose battery is empty and whose perception says low battery, on
base. -/
def doneFlatSnapshot : Snapshot :=
  { sampleSnapshot with
    agent := { orientation := "E", battery_level := 0 }
    last_perception := some
      { battery := some "low", front_obstacle := none, on_dirt := none,
        on_base := some true }
    done := true }

/-- An unfinished run with an empty battery, perceived on base with category low. -/
def flatSnapshot : Snapshot :=
  { doneFlatSnapshot with done := false, last_action := some "clean" }

/-- On the base with a full battery while the perception still says low. -/
def fullOnBaseSnapshot : Snapshot :=
  { flatSnapshot with agent := { orientation := "E", battery_level := 100 } }

/-! ## Sample runs of the controller -/

/-- The controller right after the page has loaded `sampleSnapshot` on `fullDom`. -/
def idleCtl : Controller :=
  { state := sampleSnapshot
    dom := (renderState sampleSnapshot fullDom).dom
    autoRunning := false
    intervalId := none
    timers := []
    lastHandle := 0
    pending := 0
    console := [] }

/-- The first handle the window gives out. -/
def firstHandle : TimerId := ⟨1, Nat.succ_pos 0⟩

/-- A successful response with the given step count. -/
def tickSnapshot (n : Nat) : Snapshot :=
  { sampleSnapshot with step_count := n }

/-- A response whose battery level is 0, task not done. -/
def flatTick : Snapshot :=
  { sampleSnapshot with step_count := 4, agent := { orientation := "N", battery_level := 0 } }

/-- One tick of the timer `firstHandle` answered by the snapshot `s`. -/
def tickWith (s : Snapshot) (ctl : Controller) : Controller :=
  tickSettled (FetchResult.json s) (timerFire firstHandle ctl)

/-- Auto-run toggled on from `idleCtl`. -/
def runningCtl : Controller := btnAutoClick idleCtl

/-- Auto-run toggled on, then three ticks answered with step counts 1, 2, 3. -/
def afterThreeTicks : Controller :=
  tickWith (tickSnapshot 3) (tickWith (tickSnapshot 2) (tickWith (tickSnapshot 1) runningCtl))

/-- A finished run (`done == true`) whose grid has one row although `rows` is 2. -/
def shortGridDone : Snapshot :=
  { sampleSnapshot with
    environment := { sampleEnv with grid := [["BASE", "EMPTY", "WALL"]] }
    done := true }

/-- The three band classes of the battery bar. -/
def bandClasses : List String := ["low", "medium", "high"]

/-- The battery widget of `fullDom` after `updateBattery level`. -/
def sampleBar (level : ℚ) : Option BatteryBar :=
  (updateBattery level fullDom).batteryLevel

/-- The sample snapshot with the robot placed outside the 2 x 3 room. -/
def robotOutSnapshot : Snapshot :=
  { sampleSnapshot with environment := { sampleEnv with robot_position := (5, 5) } }

/-- The sample snapshot whose second row has one cell although `cols` is 3. -/
def shortRowSnapshot : Snapshot :=
  { sampleSnapshot with
    environment := { sampleEnv with grid := [["BASE", "EMPTY", "WALL"], ["DIRT"]] } }

/-- The sample snapshot whose grid has one row although `rows` is 2. -/
def shortGridSnapshot : Snapshot :=
  { sampleSnapshot with
    environment := { sampleEnv with grid := [["BASE", "EMPTY", "WALL"]] } }

/-- The exception of reading an index of `undefined`. -/
def undefinedRead : JsError :=
  JsError.typeError "Cannot read properties of undefined"

/-- The class list and the glyph of the robot cell. -/
def robotCell : String × String := ("cell robot ", "🧹")

/-- The class list and the glyph of an empty cell. -/
def emptyCell : String × String := ("cell empty ", "⬜")

/-! ## Partial pages -/

/-- The region `a` when the page has it, else the region `b`. -/
def orFrom {α : Type} (a b : Option α) : Option α :=
  match a with
  | some x => some x
  | none => b

/-- The page `d` with each region it lacks taken from `base`. -/
def Dom.fill (d base : Dom) : Dom :=
  { grid := orFrom d.grid base.grid
    stepCount := orFrom d.stepCount base.stepCount
    orientation := orFrom d.orientation base.orientation
    progress := orFrom d.progress base.progress
    lastAction := orFrom d.lastAction base.lastAction
    dirtyRemaining := orFrom d.dirtyRemaining base.dirtyRemaining
    progressBar := orFrom d.progressBar base.progressBar
    percBattery := orFrom d.percBattery base.percBattery
    percFront := orFrom d.percFront base.percFront
    percDirt := orFrom d.percDirt base.percDirt
    percBase := orFrom d.percBase base.percBase
    batteryLevel := orFrom d.batteryLevel base.batteryLevel
    batteryText := orFrom d.batteryText base.batteryText
    agentStatus := orFrom d.agentStatus base.agentStatus
    btnStep := orFrom d.btnStep base.btnStep
    btnAuto := orFrom d.btnAuto base.btnAuto }

/-- A complete render surface: every display region `renderState` writes to exists. -/
def Dom.complete (d : Dom) : Prop :=
  d.grid.isSome ∧ d.stepCount.isSome ∧ d.orientation.isSome ∧ d.progress.isSome ∧
  d.lastAction.isSome ∧ d.dirtyRemaining.isSome ∧ d.progressBar.isSome ∧
  d.percBattery.isSome ∧ d.percFront.isSome ∧ d.percDirt.isSome ∧ d.percBase.isSome ∧
  d.batteryLevel.isSome ∧ d.batteryText.isSome ∧ d.agentStatus.isSome

instance (d : Dom) : Decidable d.complete := by
  unfold Dom.complete
  infer_instance

/-- The full page without its grid container. -/
def noGridDom : Dom := { fullDom with grid := none }

/-- The full page without its battery text. -/
def noBatteryTextDom : Dom := { fullDom with batteryText := none }

/-- The full page without its battery bar. -/
def noBatteryBarDom : Dom := { fullDom with batteryLevel := none }

/-- The sample snapshot whose `progress` is the JSON number written with the decimal
value `q`: `JSON.parse` gives the binary64 value nearest to it. -/
def literalSnapshot (q : ℚ) : Snapshot :=
  { sampleSnapshot with progress := roundDouble q }

/-- The sample snapshot with `progress` equal to `1e19`. -/
def hugeProgressSnapshot : Snapshot :=
  { sampleSnapshot with progress := 10 ^ 19 }

/-- The placeholder the panel shows for a value that is absent (lines 81, 87, 95,
103). -/
def placeholder : String := "-"

/-- Rules 1, 2, 5 and 6 of the classifier alone, as the specification lists them. -/
def specStatusWithoutPerception (s : Snapshot) : String :=
  if s.done = true then labelTaskComplete
  else if s.agent.battery_level ≤ 0 then labelBatteryDepleted
  else if s.last_action = some "clean" then labelCleaning
  else labelTraversing

/-- The value stored under one key of `last_perception`, `none` when the key or the
whole record is absent. -/
def perceptionKey (s : Snapshot) (key : Perception → Option Bool) : Option Bool :=
  s.last_perception.bind key

/-- The sample snapshot before any step: no perception record, no last action. -/
def freshSnapshot : Snapshot :=
  { sampleSnapshot with last_perception := none, last_action := none, step_count := 0 }

/-- The sample snapshot whose perception has `on_dirt` false, `on_base` true and no
`front_obstacle` key. -/
def partialPerceptionSnapshot : Snapshot :=
  { sampleSnapshot with
    last_perception := some
      { battery := none, front_obstacle := none, on_dirt := some false,
        on_base := some true } }

/-- What the specification asks of one flag readout: "Sí" for a key present with true,
"No" for a key present with false, the placeholder for an absent key; a yes/no string
exactly when the key is present. -/
def flagReadoutSpec (key : Option Bool) (text : String) : Prop :=
  (key = some true → text = "Sí") ∧
  (key = some false → text = "No") ∧
  (key = none → text = placeholder) ∧
  ((text = "Sí" ∨ text = "No") ↔ key.isSome = true)

/-- A room of no rows; the robot position cannot be in bounds. -/
def emptyRoomSnapshot : Snapshot :=
  { sampleSnapshot with
    environment :=
      { rows := 0, cols := 3, grid := [], robot_position := (-1, 7), dirty_cells := 0 } }

/-- A room of no columns whose grid array has fewer rows than `rows`. -/
def noColumnsSnapshot : Snapshot :=
  { sampleSnapshot with
    environment :=
      { rows := 4, cols := 0, grid := [["WALL"]], robot_position := (0, 0),
        dirty_cells := 0 } }

/-- A response that declares 2 rows of 5 columns and carries one row. -/
def wideShortGridSnapshot : Snapshot :=
  { sampleSnapshot with
    environment :=
      { sampleEnv with cols := 5, grid := [["BASE", "EMPTY", "WALL", "DIRT", "DIRT"]] } }

/-- A response with an empty battery whose grid has one row although `rows` is 2. -/
def shortGridFlat : Snapshot :=
  { shortGridSnapshot with agent := { orientation := "N", battery_level := 0 } }

/-! ## Runs of the controller -/

/-- What can happen to the controller: a click on either button, a timer firing, and
the settling of a manual or of a timed request. -/
inductive Event where
  | autoClick
  | stepClick
  | fire (id : TimerId)
  | stepDone (res : FetchResult)
  | tickDone (res : FetchResult)

/-- The handler that runs on an event. -/
def handle (ctl : Controller) (ev : Event) : Controller :=
  match ev with
  | Event.autoClick => btnAutoClick ctl
  | Event.stepClick => btnStepClick ctl
  | Event.fire id => timerFire id ctl
  | Event.stepDone res => stepSettled res ctl
  | Event.tickDone res => tickSettled res ctl

/-- The controller after a sequence of events. -/
def run (ctl : Controller) (events : List Event) : Controller :=
  events.foldl handle ctl

/-- The run-state invariant: `autoRunning` says whether a handle is held, the live
timers are exactly the held one (of period 400), and no live handle exceeds the last
one given out. -/
def ctlInvariant (ctl : Controller) : Prop :=
  ctl.autoRunning = ctl.intervalId.isSome ∧
  ctl.timers = (match ctl.intervalId with
    | some id => [⟨id, 400⟩]
    | none => []) ∧
  ∀ t ∈ ctl.timers, t.id.val ≤ ctl.lastHandle

/-- A session: auto-run on, one answered tick, a manual step that is rejected, auto-run
off and on again, then a tick answered with an empty battery. -/
def sampleSession : List Event :=
  [Event.autoClick, Event.fire firstHandle,
    Event.tickDone (FetchResult.json (tickSnapshot 1)),
    Event.stepClick, Event.stepDone (FetchResult.rejected "NetworkError"),
    Event.autoClick, Event.autoClick,
    Event.fire ⟨2, Nat.succ_pos 1⟩, Event.tickDone (FetchResult.json flatTick)]

/-! ## Reading the markup as a list of cells -/

/-- Concatenation of a list of markup pieces, in order. -/
def concatAll (pieces : List String) : String :=
  pieces.foldr (fun piece rest => piece ++ rest) ""

/-- The class list and glyph the loop body computes at `(r, c)`: `cellStyle` applied to
what `env.grid[r][c]` reads. -/
def cellAt (env : Environment) (r c : Nat) : String × String :=
  cellStyle env.robot_position.1 env.robot_position.2 r c
    (env.grid[r]?.bind (fun row => row[c]?))

/-- The data-model condition on the grid: each of the first `rows` rows exists and has
at least `cols` cells. -/
def gridCovers (env : Environment) : Prop :=
  ∀ r, r < env.rows → ∃ row, env.grid[r]? = some row ∧ env.cols ≤ row.length

/-- The data-model condition on the robot: `0 <= row < rows` and `0 <= col < cols`. -/
def robotInBounds (env : Environment) : Prop :=
  0 ≤ env.robot_position.1 ∧ env.robot_position.1 < env.rows ∧
  0 ≤ env.robot_position.2 ∧ env.robot_position.2 < env.cols

instance (env : Environment) : Decidable (robotInBounds env) := by
  unfold robotInBounds
  infer_instance

/-! ## Theorems -/

/-- C2: a snapshot with `done == true` is classified as task complete, with the
gradient of that label, whatever the battery level, the last action and the perception
are; on a page with a status banner, `updateStatus` writes exactly that pair. -/
theorem status_done_is_task_complete (s : Snapshot) (h : s.done = true) :
    statusLabel s = (labelTaskComplete, "linear-gradient(90deg, #22c55e, #16a34a)") ∧
    ∀ (d : Dom) (banner : StatusDiv), d.agentStatus = some banner →
      (updateStatus s d).agentStatus =
        some ⟨"✔ Habitación limpia", "linear-gradient(90deg, #22c55e, #16a34a)"⟩ := by
  have hl : statusLabel s =
      (labelTaskComplete, "linear-gradient(90deg, #22c55e, #16a34a)") := by
    simp [statusLabel, h, labelTaskComplete]
  refine ⟨hl, ?_⟩
  intro d banner hd
  simp only [updateStatus, hd, hl, labelTaskComplete]

/-- Witness of C2 on a finished run with an empty battery. -/
theorem status_done_is_task_complete_witness :
    doneFlatSnapshot.done = true ∧ doneFlatSnapshot.agent.battery_level ≤ 0 ∧
    statusLabel doneFlatSnapshot =
      ("✔ Habitación limpia", "linear-gradient(90deg, #22c55e, #16a34a)") :=
  ⟨rfl, by decide, (status_done_is_task_complete doneFlatSnapshot rfl).1⟩

/-- C3: a snapshot with `done == false` and `battery_level <= 0` is classified as
battery depleted, whatever the perception and the last action are; on a page with a
status banner, `updateStatus` writes that text. -/
theorem status_flat_is_battery_depleted (s : Snapshot) (hd : s.done = false)
    (hb : s.agent.battery_level ≤ 0) :
    statusLabel s = (labelBatteryDepleted, "linear-gradient(90deg, #ef4444, #b91c1c)") ∧
    ∀ (d : Dom) (banner : StatusDiv), d.agentStatus = some banner →
      (updateStatus s d).agentStatus =
        some ⟨"⚠ Sin batería", "linear-gradient(90deg, #ef4444, #b91c1c)"⟩ := by
  have hl : statusLabel s =
      (labelBatteryDepleted, "linear-gradient(90deg, #ef4444, #b91c1c)") := by
    simp [statusLabel, hd, hb, labelBatteryDepleted]
  refine ⟨hl, ?_⟩
  intro d banner hdom
  simp only [updateStatus, hdom, hl, labelBatteryDepleted]

/-- Witness of C3: empty battery, perceived on base with category low. -/
theorem status_flat_is_battery_depleted_witness :
    percOnBase flatSnapshot ∧ percBatteryLow flatSnapshot ∧
    statusLabel flatSnapshot =
      ("⚠ Sin batería", "linear-gradient(90deg, #ef4444, #b91c1c)") :=
  ⟨⟨_, rfl, rfl⟩, ⟨_, rfl, rfl⟩,
    (status_flat_is_battery_depleted flatSnapshot rfl (by decide)).1⟩

/-- The test `onBase` of the code holds exactly when the perception says on base. -/
theorem truthyFlag_on_base_iff (s : Snapshot) :
    truthyFlag (percOrEmpty s.last_perception).on_base = true ↔ percOnBase s := by
  unfold percOnBase
  cases hp : s.last_perception with
  | none => simp [percOrEmpty, truthyFlag]
  | some p =>
    cases hb : p.on_base with
    | none => simp [percOrEmpty, truthyFlag, hb]
    | some v => cases v <;> simp [percOrEmpty, truthyFlag, hb]

/-- The test `batteryLabel === "low"` of the code holds exactly when the perception
carries the category "low". -/
theorem batteryLabel_low_iff (s : Snapshot) :
    strOr (percOrEmpty s.last_perception).battery "high" = "low" ↔ percBatteryLow s := by
  unfold percBatteryLow
  cases hp : s.last_perception with
  | none => simp [percOrEmpty, strOr]
  | some p =>
    cases hb : p.battery with
    | none => simp [percOrEmpty, strOr, hb]
    | some v =>
      by_cases hv : v = ""
      · subst hv; simp [percOrEmpty, strOr, hb]
      · simp [percOrEmpty, strOr, hb, hv]

/-- The test `lastAction === "clean"` of the code. -/
theorem lastAction_clean_iff (a : Option String) :
    strOr a "" = "clean" ↔ a = some "clean" := by
  cases a with
  | none => simp [strOr]
  | some v =>
    by_cases hv : v = ""
    · subst hv; simp [strOr]
    · simp [strOr, hv]

/-- C4: with `done == false` and `battery_level > 0` the banner text is the one the
first-match table of rules 3 to 6 gives; on base with a battery level of 100 and the
category "low" it is cleaning or traversing; and for every snapshot the text is one of
the six labels, never the initial "En espera". -/
theorem status_first_match_table (s : Snapshot) :
    (s.done = false → 0 < s.agent.battery_level →
      (statusLabel s).1 = specStatusTable s ∧
      (percOnBase s → s.agent.battery_level = 100 → percBatteryLow s →
        ((statusLabel s).1 = labelCleaning ∨ (statusLabel s).1 = labelTraversing) ∧
        (statusLabel s).1 ≠ labelSeekingBase)) ∧
    (statusLabel s).1 ∈ [labelTaskComplete, labelBatteryDepleted, labelCharging,
      labelSeekingBase, labelCleaning, labelTraversing] ∧
    (statusLabel s).1 ≠ "En espera" := by
  have hbase := truthyFlag_on_base_iff s
  have hlow := batteryLabel_low_iff s
  have hclean := lastAction_clean_iff s.last_action
  have hform : ∀ hd : s.done = false, 0 < s.agent.battery_level →
      (statusLabel s).1 = specStatusTable s := by
    intro hd hb
    have hb2 : ¬ s.agent.battery_level ≤ 0 := not_le.mpr hb
    simp only [statusLabel, specStatusTable, hd, hb2, Bool.false_eq_true, if_false,
      Bool.and_eq_true, decide_eq_true_eq, Bool.not_eq_true', hbase, hlow, hclean]
    have hnb : truthyFlag (percOrEmpty s.last_perception).on_base = false ↔ ¬ percOnBase s := by
      rw [← hbase]; simp
    simp only [hnb]
    split_ifs <;> rfl
  refine ⟨fun hd hb => ⟨hform hd hb, ?_⟩, ?_, ?_⟩
  · intro hob h100 hl
    rw [hform hd hb]
    have h1 : ¬ s.agent.battery_level < 100 := by rw [h100]; norm_num
    simp only [specStatusTable, hob, h1, hl, and_false, not_true_eq_false, if_false]
    split_ifs
    · exact ⟨Or.inl rfl, by decide⟩
    · exact ⟨Or.inr rfl, by decide⟩
  · simp only [statusLabel]
    split_ifs <;> simp [labelTaskComplete, labelBatteryDepleted, labelCharging,
      labelSeekingBase, labelCleaning, labelTraversing]
  · simp only [statusLabel]
    split_ifs <;> decide

/-- Witness of C4: on base, battery level 100, category "low", last action "clean". -/
theorem status_first_match_table_witness :
    fullOnBaseSnapshot.done = false ∧ 0 < fullOnBaseSnapshot.agent.battery_level ∧
    (statusLabel fullOnBaseSnapshot).1 = specStatusTable fullOnBaseSnapshot ∧
    (statusLabel fullOnBaseSnapshot).1 = "🧽 Limpiando" :=
  ⟨rfl, by decide,
    ((status_first_match_table fullOnBaseSnapshot).1 rfl (by decide)).1, by decide⟩

/-! ### Grid renderer -/

theorem concatAll_append (a b : List String) :
    concatAll (a ++ b) = concatAll a ++ concatAll b := by
  induction a with
  | nil => simp [concatAll]
  | cons x xs ih =>
    simp only [concatAll, List.cons_append, List.foldr_cons] at ih ⊢
    rw [ih, String.append_assoc]

/-- The inner loop over an existing row appends one piece per column. -/
theorem foldlM_renderCell_ok (env : Environment) (r : Nat) (row : List String)
    (h : env.grid[r]? = some row) (html : String) (n : Nat) :
    (List.range n).foldlM (renderCell env r) html =
      Except.ok (html ++ concatAll ((List.range n).map (fun c => cellDiv (cellAt env r c)))) := by
  induction n with
  | zero => simp [concatAll]; rfl
  | succ n ih =>
    rw [List.range_succ, List.foldlM_append, ih, List.map_append, concatAll_append]
    simp only [bind, Except.bind, List.foldlM_cons, List.foldlM_nil, renderCell, h,
      List.map_cons, List.map_nil, cellAt, Option.bind_some]
    simp [concatAll, String.append_assoc, pure, Except.pure]

/-- Position `n * cols + c` of the row-major order is row `n`, column `c`. -/
theorem rowMajor_index (cols n c : Nat) (hc : c < cols) :
    (n * cols + c) / cols = n ∧ (n * cols + c) % cols = c := by
  have hpos : 0 < cols := by omega
  constructor
  · rw [Nat.add_comm, Nat.add_mul_div_right _ _ hpos, Nat.div_eq_of_lt hc, Nat.zero_add]
  · rw [Nat.add_comm, Nat.add_mul_mod_self_right, Nat.mod_eq_of_lt hc]

/-- The two loops over a grid with at least `n` rows append the cells of the first `n`
rows in row-major order. -/
theorem foldlM_renderRow_ok (env : Environment) (n : Nat) (hn : n ≤ env.grid.length)
    (html : String) :
    (List.range n).foldlM (renderRow env) html =
      Except.ok (html ++ concatAll ((List.range (n * env.cols)).map
        (fun i => cellDiv (cellAt env (i / env.cols) (i % env.cols))))) := by
  induction n with
  | zero => simp [concatAll]; rfl
  | succ n ih =>
    have hlt : n < env.grid.length := hn
    have hrow : env.grid[n]? = some env.grid[n] := List.getElem?_eq_getElem hlt
    rw [List.range_succ, List.foldlM_append, ih (Nat.le_of_lt hlt)]
    simp only [bind, Except.bind, List.foldlM_cons, List.foldlM_nil, renderRow]
    rw [foldlM_renderCell_ok env n _ hrow]
    simp only [pure, Except.pure]
    rw [Nat.succ_mul, List.range_add, List.map_append, concatAll_append, List.map_map,
      String.append_assoc]
    congr 4
    apply List.map_congr_left
    intro c hc
    have hc2 : c < env.cols := List.mem_range.mp hc
    simp only [Function.comp, (rowMajor_index env.cols n c hc2).1,
      (rowMajor_index env.cols n c hc2).2]

theorem updateStatus_grid (s : Snapshot) (d : Dom) : (updateStatus s d).grid = d.grid := by
  unfold updateStatus
  cases d.agentStatus <;> rfl

theorem updateBattery_grid (level : ℚ) (d : Dom) :
    (updateBattery level d).grid = d.grid := by
  unfold updateBattery
  cases d.batteryLevel <;> cases d.batteryText <;> rfl

/-- The value of `renderState` when `#grid` exists and the loops run to their end. -/
theorem renderState_of_ok (s : Snapshot) (d : Dom) (g : GridDiv) (html : String)
    (hg : d.grid = some g) (hr : renderGrid s.environment = Except.ok html) :
    renderState s d =
      ⟨updateStatus s (updateBattery s.agent.battery_level (renderPanel s
        { d with
          grid := some ⟨"repeat(" ++ toString s.environment.cols ++ ", 1fr)", html⟩ })),
        none⟩ := by
  simp only [renderState, hg, hr]

/-- The markup `renderGrid` returns on a grid with at least `rows` rows. -/
theorem renderGrid_ok (env : Environment) (h : env.rows ≤ env.grid.length) :
    renderGrid env = Except.ok (concatAll ((List.range (env.rows * env.cols)).map
      (fun i => cellDiv (cellAt env (i / env.cols) (i % env.cols))))) := by
  unfold renderGrid
  rw [foldlM_renderRow_ok env env.rows h, String.empty_append]

theorem gridCovers_rows_le (env : Environment) (h : gridCovers env) :
    env.rows ≤ env.grid.length := by
  by_contra hlt
  push_neg at hlt
  obtain ⟨row, hrow, _⟩ := h env.grid.length hlt
  simp at hrow

/-- C1: for a snapshot that satisfies the data model, on a page with a grid container,
`renderState` raises no error and leaves in `#grid` the markup of exactly `rows * cols`
cells in row-major order; the cell at index `robotRow * cols + robotCol` is the robot
cell (class `robot`, glyph 🧹), whatever kind the grid stores there. -/
theorem renderState_grid_cells (s : Snapshot) (d : Dom) (g : GridDiv)
    (hg : d.grid = some g) (hgrid : gridCovers s.environment)
    (hrobot : robotInBounds s.environment) :
    ∃ cells : List (String × String),
      (renderState s d).error = none ∧
      (renderState s d).dom.grid = some
        { gridTemplateColumns := "repeat(" ++ toString s.environment.cols ++ ", 1fr)"
          innerHTML := concatAll (cells.map cellDiv) } ∧
      cells.length = s.environment.rows * s.environment.cols ∧
      (∀ r c, r < s.environment.rows → c < s.environment.cols →
        cells[r * s.environment.cols + c]? = some (cellAt s.environment r c)) ∧
      cells[s.environment.robot_position.1.toNat * s.environment.cols +
        s.environment.robot_position.2.toNat]? = some ("cell robot ", "🧹") := by
  have hidx : ∀ r c, r < s.environment.rows → c < s.environment.cols →
      ((List.range (s.environment.rows * s.environment.cols)).map
        (fun i => cellAt s.environment (i / s.environment.cols) (i % s.environment.cols)))[
          r * s.environment.cols + c]? = some (cellAt s.environment r c) := by
    intro r c hr hc
    have hlt : r * s.environment.cols + c < s.environment.rows * s.environment.cols := by
      calc r * s.environment.cols + c < r * s.environment.cols + s.environment.cols := by omega
        _ = (r + 1) * s.environment.cols := (Nat.succ_mul _ _).symm
        _ ≤ s.environment.rows * s.environment.cols := Nat.mul_le_mul_right _ hr
    rw [List.getElem?_map, List.getElem?_range hlt, Option.map_some',
      (rowMajor_index _ r c hc).1, (rowMajor_index _ r c hc).2]
  refine ⟨(List.range (s.environment.rows * s.environment.cols)).map
    (fun i => cellAt s.environment (i / s.environment.cols) (i % s.environment.cols)),
    ?_, ?_, ?_, hidx, ?_⟩
  · rw [renderState_of_ok s d g _ hg (renderGrid_ok _ (gridCovers_rows_le _ hgrid))]
  · rw [renderState_of_ok s d g _ hg (renderGrid_ok _ (gridCovers_rows_le _ hgrid))]
    simp only [updateStatus_grid, updateBattery_grid, renderPanel, List.map_map]
    rfl
  · simp
  · obtain ⟨h1, h2, h3, h4⟩ := hrobot
    have hr : s.environment.robot_position.1.toNat < s.environment.rows := by omega
    have hc : s.environment.robot_position.2.toNat < s.environment.cols := by omega
    rw [hidx _ _ hr hc]
    have e1 : ((s.environment.robot_position.1.toNat : Nat) : Int) =
        s.environment.robot_position.1 := Int.toNat_of_nonneg h1
    have e2 : ((s.environment.robot_position.2.toNat : Nat) : Int) =
        s.environment.robot_position.2 := Int.toNat_of_nonneg h3
    simp only [cellAt, cellStyle, e1, e2, and_self, if_true]
    rfl

theorem sampleEnv_gridCovers : gridCovers sampleEnv := by
  intro r hr
  have hr2 : r < 2 := hr
  interval_cases r
  · exact ⟨_, rfl, by decide⟩
  · exact ⟨_, rfl, by decide⟩

/-- Witness of C1 on the 2 x 3 sample room, where the robot stands on a dirty cell. -/
theorem renderState_grid_cells_witness :
    sampleEnv.grid[1]? = some ["DIRT", "DIRT", "EMPTY"] ∧
    ∃ cells : List (String × String),
      (renderState sampleSnapshot fullDom).error = none ∧
      (renderState sampleSnapshot fullDom).dom.grid = some
        { gridTemplateColumns := "repeat(" ++ toString 3 ++ ", 1fr)"
          innerHTML := concatAll (cells.map cellDiv) } ∧
      cells.length = 2 * 3 ∧
      (∀ r c, r < 2 → c < 3 → cells[r * 3 + c]? = some (cellAt sampleEnv r c)) ∧
      cells[1 * 3 + 1]? = some ("cell robot ", "🧹") :=
  ⟨rfl, renderState_grid_cells sampleSnapshot fullDom _ rfl sampleEnv_gridCovers
    (by decide)⟩

/-! ### Polling controller -/

theorem stopAuto_fields (ctl : Controller) :
    (stopAuto ctl).state = ctl.state ∧
    (stopAuto ctl).dom = { ctl.dom with btnAuto := setText ctl.dom.btnAuto "▶️ Auto" } ∧
    (stopAuto ctl).autoRunning = false ∧
    (stopAuto ctl).intervalId = none ∧
    (stopAuto ctl).timers = ctl.timers.filter (fun t => decide (some t.id ≠ ctl.intervalId)) ∧
    (stopAuto ctl).pending = ctl.pending ∧
    (stopAuto ctl).console = ctl.console ∧
    (stopAuto ctl).lastHandle = ctl.lastHandle := by
  unfold stopAuto
  cases h : ctl.intervalId with
  | none => simp [h]
  | some id => simp [h, clearInterval]

theorem filter_held_eq_nil (timers : List Timer) (held : Option TimerId)
    (h : ∀ t ∈ timers, held = some t.id) :
    timers.filter (fun t => decide (some t.id ≠ held)) = [] := by
  rw [List.filter_eq_nil_iff]
  intro t ht
  simp [h t ht]

/-- What both continuations do with a terminal snapshot that renders without error. -/
theorem then_terminal (ctl : Controller) (s : Snapshot) (hterm : terminal s)
    (hok : (renderState s ctl.dom).error = none) :
    stepThen s ctl = stopAuto { ctl with state := s, dom := (renderState s ctl.dom).dom } ∧
    tickThen s ctl = stopAuto { ctl with state := s, dom := (renderState s ctl.dom).dom } := by
  have ht : (s.done || decide (s.agent.battery_level ≤ 0)) = true := by
    rcases hterm with h | h <;> simp [h]
  constructor
  · simp only [stepThen, hok, ht, if_true]
  · simp only [tickThen, hok, ht, if_true]

/-- C5 (amended): when a step request, manual or timed, is answered by a terminal
snapshot whose rendering raises no error, then after the response is processed the
current snapshot is the new one, the document is the one `renderState` produced from it
(with the auto button relabelled), the controller is idle and holds no timer, and the
timer it held is no longer live; if every live timer was the held one, none is left and
no tick can fire.  This holds from an idle and from an auto-running controller. -/
theorem terminal_response_stops (ctl : Controller) (s : Snapshot) (hterm : terminal s)
    (hok : (renderState s ctl.dom).error = none) (c : Controller)
    (hc : c = stepSettled (FetchResult.json s) ctl ∨
      c = tickSettled (FetchResult.json s) ctl) :
    c.state = s ∧
    c.dom = { (renderState s ctl.dom).dom with
      btnAuto := setText (renderState s ctl.dom).dom.btnAuto "▶️ Auto" } ∧
    c.autoRunning = false ∧
    c.intervalId = none ∧
    c.timers = ctl.timers.filter (fun t => decide (some t.id ≠ ctl.intervalId)) ∧
    ((∀ t ∈ ctl.timers, ctl.intervalId = some t.id) →
      c.timers = [] ∧ ∀ id, timerFire id c = c) := by
  have hstep := then_terminal { ctl with pending := ctl.pending - 1 } s hterm hok
  have hf := stopAuto_fields
    { ctl with pending := ctl.pending - 1, state := s, dom := (renderState s ctl.dom).dom }
  have hc2 : c = stopAuto
      { ctl with pending := ctl.pending - 1, state := s, dom := (renderState s ctl.dom).dom } := by
    rcases hc with h | h
    · rw [h]; simp only [stepSettled]; exact hstep.1
    · rw [h]; simp only [tickSettled]; exact hstep.2
  obtain ⟨h1, h2, h3, h4, h5, -, -, -⟩ := hf
  rw [← hc2] at h1 h2 h3 h4 h5
  refine ⟨h1, h2, h3, h4, h5, ?_⟩
  intro hall
  have hnil : c.timers = [] := by
    rw [h5]; exact filter_held_eq_nil _ _ hall
  refine ⟨hnil, ?_⟩
  intro id
  simp [timerFire, hnil]

/-- The sample controller is the one the page load produces. -/
theorem init_sample : init fullDom sampleSnapshot = some idleCtl := rfl

/-- Witness of C5: auto-run is toggled on, three ticks bring step counts 1, 2, 3, then
a tick brings battery level 0; auto-run stops after that tick and no tick can fire. -/
theorem terminal_response_stops_witness :
    afterThreeTicks.autoRunning = true ∧ afterThreeTicks.state.step_count = 3 ∧
    terminal flatTick ∧
    (tickWith flatTick afterThreeTicks).state = flatTick ∧
    (tickWith flatTick afterThreeTicks).autoRunning = false ∧
    (tickWith flatTick afterThreeTicks).intervalId = none ∧
    (tickWith flatTick afterThreeTicks).timers = [] ∧
    ∀ id, timerFire id (tickWith flatTick afterThreeTicks) = tickWith flatTick afterThreeTicks :=
  have h := terminal_response_stops (timerFire firstHandle afterThreeTicks) flatTick
    (by decide) (by decide) (tickWith flatTick afterThreeTicks) (Or.inr rfl)
  ⟨by decide, by decide, by decide, h.1, h.2.2.1, h.2.2.2.1,
    (h.2.2.2.2.2 (by decide)).1, (h.2.2.2.2.2 (by decide)).2⟩

/-- Counterexample to C5 as stated: an auto-running controller receives a decoded
response with `done == true` whose grid has fewer rows than `rows`; `renderState`
throws, the terminal test is skipped, and the controller stays auto-running with its
timer live. -/
theorem terminal_response_keeps_running :
    terminal shortGridDone ∧ runningCtl.autoRunning = true ∧
    (tickWith shortGridDone runningCtl).state = shortGridDone ∧
    (tickWith shortGridDone runningCtl).autoRunning = true ∧
    (tickWith shortGridDone runningCtl).intervalId = some firstHandle ∧
    (tickWith shortGridDone runningCtl).timers = [⟨firstHandle, 400⟩] ∧
    (stepSettled (FetchResult.json shortGridDone) (btnStepClick runningCtl)).autoRunning = true := by
  refine ⟨by decide, by decide, rfl, by decide, by decide, by decide, by decide⟩

/-- A request fails when the fetch rejects or the body cannot be decoded. -/
theorem failed_cases (res : FetchResult) (hfail : ∀ s, res ≠ FetchResult.json s) :
    ∃ err, (res = FetchResult.rejected err ∨ res = FetchResult.undecodable err) := by
  cases res with
  | rejected reason => exact ⟨reason, Or.inl rfl⟩
  | undecodable reason => exact ⟨reason, Or.inr rfl⟩
  | json s => exact absurd rfl (hfail s)

/-- C6: in every controller state, a step request that fails (the fetch rejects or the
body cannot be decoded), manual or timed, leaves the current snapshot, the document,
`autoRunning`, `intervalId` and the live timers unchanged; one line is added to the
console and the request is no longer in flight. -/
theorem failed_request_only_logs (ctl : Controller) (res : FetchResult)
    (hfail : ∀ s, res ≠ FetchResult.json s) (c : Controller)
    (hc : c = stepSettled res ctl ∨ c = tickSettled res ctl) :
    c.state = ctl.state ∧ c.dom = ctl.dom ∧ c.autoRunning = ctl.autoRunning ∧
    c.intervalId = ctl.intervalId ∧ c.timers = ctl.timers ∧
    c.lastHandle = ctl.lastHandle ∧ c.pending = ctl.pending - 1 ∧
    ∃ entry : LogEntry, c.console = ctl.console ++ [entry] ∧
      entry.msg = "Error en step_json:" ∧
      ∀ e, entry.err ≠ Failure.thrown e := by
  obtain ⟨err, hres | hres⟩ := failed_cases res hfail
  · subst hres
    rcases hc with h | h <;> subst h <;>
      exact ⟨rfl, rfl, rfl, rfl, rfl, rfl, rfl, ⟨_, Failure.rejected err⟩, rfl, rfl,
        fun e h => Failure.noConfusion h⟩
  · subst hres
    rcases hc with h | h <;> subst h <;>
      exact ⟨rfl, rfl, rfl, rfl, rfl, rfl, rfl, ⟨_, Failure.undecodable err⟩, rfl, rfl,
        fun e h => Failure.noConfusion h⟩

/-- Witness of C6: a tick of the running controller whose fetch rejects. -/
theorem failed_request_only_logs_witness :
    (tickSettled (FetchResult.rejected "NetworkError") (timerFire firstHandle runningCtl)).state
      = runningCtl.state ∧
    (tickSettled (FetchResult.rejected "NetworkError") (timerFire firstHandle runningCtl)).autoRunning
      = true ∧
    (tickSettled (FetchResult.rejected "NetworkError") (timerFire firstHandle runningCtl)).intervalId
      = some firstHandle :=
  have h := failed_request_only_logs (timerFire firstHandle runningCtl)
    (FetchResult.rejected "NetworkError") (fun _ hs => FetchResult.noConfusion hs) _
    (Or.inr rfl)
  ⟨h.1, h.2.2.1, h.2.2.2.1⟩

/-- A click on the auto button of an auto-running controller runs `stopAuto`. -/
theorem btnAutoClick_running (ctl : Controller) (label : String)
    (hbtn : ctl.dom.btnAuto = some label) (h : ctl.autoRunning = true) :
    btnAutoClick ctl = stopAuto { ctl with autoRunning := false } := by
  simp [btnAutoClick, hbtn, h]

/-- A click on the auto button of an idle controller starts one timer of 400 ms. -/
theorem btnAutoClick_idle (ctl : Controller) (label : String)
    (hbtn : ctl.dom.btnAuto = some label) (h : ctl.autoRunning = false) :
    btnAutoClick ctl =
      { ctl with
        autoRunning := true
        dom := { ctl.dom with btnAuto := some "⏸ Pausar" }
        timers := ctl.timers ++ [⟨⟨ctl.lastHandle + 1, Nat.succ_pos _⟩, 400⟩]
        lastHandle := ctl.lastHandle + 1
        intervalId := some ⟨ctl.lastHandle + 1, Nat.succ_pos _⟩ } := by
  simp [btnAutoClick, hbtn, h]

/-- C7: with the auto button on the page, a click on it is a two-state switch.  From
Idle (`autoRunning == false`, no handle held) the controller becomes AutoRunning and
exactly one timer is created, of period 400 ms, whose handle it holds and which differs
from every timer already live.  From AutoRunning it becomes Idle, holds no handle, and
the timer it held is no longer live.  In both directions the current snapshot and the
requests in flight are untouched, and two clicks in a row restore the run state. -/
theorem toggle_auto_is_switch (ctl : Controller) (label : String)
    (hbtn : ctl.dom.btnAuto = some label) :
    (ctl.autoRunning = false → ctl.intervalId = none →
      (btnAutoClick ctl).autoRunning = true ∧
      ∃ id, (btnAutoClick ctl).intervalId = some id ∧
        (btnAutoClick ctl).timers = ctl.timers ++ [⟨id, 400⟩] ∧
        ((∀ t ∈ ctl.timers, t.id.val ≤ ctl.lastHandle) → ∀ t ∈ ctl.timers, t.id ≠ id)) ∧
    (ctl.autoRunning = true →
      (btnAutoClick ctl).autoRunning = false ∧
      (btnAutoClick ctl).intervalId = none ∧
      (btnAutoClick ctl).timers =
        ctl.timers.filter (fun t => decide (some t.id ≠ ctl.intervalId)) ∧
      (btnAutoClick ctl).lastHandle = ctl.lastHandle) ∧
    (btnAutoClick ctl).state = ctl.state ∧
    (btnAutoClick ctl).pending = ctl.pending ∧
    (btnAutoClick ctl).console = ctl.console ∧
    (btnAutoClick (btnAutoClick ctl)).autoRunning = ctl.autoRunning ∧
    (btnAutoClick (btnAutoClick ctl)).state = ctl.state ∧
    (ctl.autoRunning = false → ctl.intervalId = none →
      (btnAutoClick (btnAutoClick ctl)).intervalId = none ∧
      ((∀ t ∈ ctl.timers, t.id.val ≤ ctl.lastHandle) →
        (btnAutoClick (btnAutoClick ctl)).timers = ctl.timers)) := by
  have hoff := btnAutoClick_running ctl label hbtn
  have hon := btnAutoClick_idle ctl label hbtn
  have hfresh : (∀ t ∈ ctl.timers, t.id.val ≤ ctl.lastHandle) →
      ∀ t ∈ ctl.timers, t.id ≠ (⟨ctl.lastHandle + 1, Nat.succ_pos _⟩ : TimerId) := by
    intro hle t ht heq
    have := hle t ht
    rw [heq] at this
    simp at this
  have hbtn2 : ∃ l, (btnAutoClick ctl).dom.btnAuto = some l := by
    cases h : ctl.autoRunning with
    | false => rw [hon h]; exact ⟨_, rfl⟩
    | true =>
      rw [hoff h, (stopAuto_fields _).2.1]
      exact ⟨"▶️ Auto", by simp [setText, hbtn]⟩
  obtain ⟨l2, hl2⟩ := hbtn2
  refine ⟨?_, ?_, ?_, ?_, ?_, ?_, ?_, ?_⟩
  · intro h _
    rw [hon h]
    exact ⟨rfl, _, rfl, rfl, hfresh⟩
  · intro h
    rw [hoff h]
    obtain ⟨-, -, h3, h4, h5, -, -, h8⟩ := stopAuto_fields { ctl with autoRunning := false }
    exact ⟨h3, h4, h5, h8⟩
  · cases h : ctl.autoRunning with
    | false => rw [hon h]
    | true => rw [hoff h, (stopAuto_fields _).1]
  · cases h : ctl.autoRunning with
    | false => rw [hon h]
    | true => rw [hoff h, (stopAuto_fields _).2.2.2.2.2.1]
  · cases h : ctl.autoRunning with
    | false => rw [hon h]
    | true => rw [hoff h, (stopAuto_fields _).2.2.2.2.2.2.1]
  · cases h : ctl.autoRunning with
    | false =>
      have h2 : (btnAutoClick ctl).autoRunning = true := by rw [hon h]
      rw [btnAutoClick_running _ l2 hl2 h2]
      exact (stopAuto_fields _).2.2.1
    | true =>
      have h2 : (btnAutoClick ctl).autoRunning = false := by
        rw [hoff h]; exact (stopAuto_fields _).2.2.1
      rw [btnAutoClick_idle _ l2 hl2 h2]
  · cases h : ctl.autoRunning with
    | false =>
      have h2 : (btnAutoClick ctl).autoRunning = true := by rw [hon h]
      have h3 : (btnAutoClick ctl).state = ctl.state := by rw [hon h]
      rw [btnAutoClick_running _ l2 hl2 h2, (stopAuto_fields _).1]
      exact h3
    | true =>
      have h2 : (btnAutoClick ctl).autoRunning = false := by
        rw [hoff h]; exact (stopAuto_fields _).2.2.1
      have h3 : (btnAutoClick ctl).state = ctl.state := by
        rw [hoff h]; exact (stopAuto_fields _).1
      rw [btnAutoClick_idle _ l2 hl2 h2]
      exact h3
  · intro h _
    have h2 : (btnAutoClick ctl).autoRunning = true := by rw [hon h]
    rw [btnAutoClick_running _ l2 hl2 h2]
    refine ⟨(stopAuto_fields _).2.2.2.1, ?_⟩
    intro hle
    rw [(stopAuto_fields _).2.2.2.2.1]
    simp only [hon h]
    rw [List.filter_append]
    have hkeep : ctl.timers.filter (fun t => decide (some t.id ≠
        some (⟨ctl.lastHandle + 1, Nat.succ_pos _⟩ : TimerId))) = ctl.timers := by
      rw [List.filter_eq_self]
      intro t ht
      simpa using hfresh hle t ht
    rw [hkeep]
    simp

/-- Witness of C7 on the freshly loaded page: one click starts the timer of handle 1,
a second click cancels it and the controller is idle again with no live timer. -/
theorem toggle_auto_is_switch_witness :
    idleCtl.dom.btnAuto = some "▶️ Auto" ∧
    (btnAutoClick idleCtl).autoRunning = true ∧
    (btnAutoClick (btnAutoClick idleCtl)).autoRunning = idleCtl.autoRunning ∧
    (btnAutoClick (btnAutoClick idleCtl)).intervalId = none ∧
    (btnAutoClick (btnAutoClick idleCtl)).timers = [] :=
  have h := toggle_auto_is_switch idleCtl "▶️ Auto" rfl
  ⟨rfl, (h.1 rfl rfl).1, h.2.2.2.2.2.1, (h.2.2.2.2.2.2.2 rfl rfl).1,
    (h.2.2.2.2.2.2.2 rfl rfl).2 (by decide)⟩

/-! ### Battery widget -/

theorem mem_removeBands (classList : List String) (k : String) :
    k ∈ removeBands classList ↔ k ∈ classList ∧ k ∉ bandClasses := by
  simp [removeBands, bandClasses, List.mem_filter, and_assoc]

theorem mem_classAdd (classList : List String) (token k : String) :
    k ∈ classAdd classList token ↔ k ∈ classList ∨ k = token := by
  unfold classAdd
  split_ifs with h
  · constructor
    · exact Or.inl
    · rintro (h1 | h1)
      · exact h1
      · rw [h1]; exact h
  · simp

theorem batteryBand_cases (level : ℚ) :
    (batteryBand level = "low" ↔ level ≤ 20) ∧
    (batteryBand level = "medium" ↔ 20 < level ∧ level ≤ 60) ∧
    (batteryBand level = "high" ↔ 60 < level) := by
  unfold batteryBand
  by_cases h1 : level ≤ 20
  · rw [if_pos h1]
    refine ⟨⟨fun _ => h1, fun _ => rfl⟩, ⟨fun h => absurd h (by decide), ?_⟩,
      ⟨fun h => absurd h (by decide), ?_⟩⟩
    · rintro ⟨h, -⟩
      exact absurd h1 (not_le.mpr h)
    · intro h
      exact absurd h1 (not_le.mpr (by linarith))
  · rw [if_neg h1]
    by_cases h2 : level ≤ 60
    · rw [if_pos h2]
      refine ⟨⟨fun h => absurd h (by decide), fun h => absurd h h1⟩,
        ⟨fun _ => ⟨not_le.mp h1, h2⟩, fun _ => rfl⟩, ⟨fun h => absurd h (by decide), ?_⟩⟩
      intro h
      exact absurd h2 (not_le.mpr h)
    · rw [if_neg h2]
      refine ⟨⟨fun h => absurd h (by decide), fun h => absurd h h1⟩,
        ⟨fun h => absurd h (by decide), ?_⟩, ⟨fun _ => not_le.mp h2, fun _ => rfl⟩⟩
      rintro ⟨-, h⟩
      exact absurd h h2

/-- For a whole level from 0 to 100, `Number::toString` gives its decimal digits. -/
theorem numberToString_upto_hundred :
    ∀ n : Nat, n ≤ 100 → numberToString (n : ℚ) = toString n := by
  decide!

/-- C10: on a page with the battery bar and the battery text, for every level (a finite
Number, whole or fractional) the bar ends in exactly one band, `low` iff `level <= 20`,
`medium` iff `20 < level <= 60`, `high` iff `level > 60`, whatever band classes it
carried before; its other classes are kept; the bar width and the battery text are the
level as the template literal prints it (`Number::toString`) followed by `%`, which for
a whole level from 0 to 100 is its decimal digits. -/
theorem updateBattery_band (level : ℚ) (d : Dom) (bar : BatteryBar) (txt : String)
    (hbar : d.batteryLevel = some bar) (htxt : d.batteryText = some txt) :
    ∃ bar2 : BatteryBar,
      (updateBattery level d).batteryLevel = some bar2 ∧
      ("low" ∈ bar2.classList ↔ level ≤ 20) ∧
      ("medium" ∈ bar2.classList ↔ 20 < level ∧ level ≤ 60) ∧
      ("high" ∈ bar2.classList ↔ 60 < level) ∧
      (bar2.classList.filter (fun k => decide (k ∈ bandClasses))).length = 1 ∧
      (∀ k, k ∉ bandClasses → (k ∈ bar2.classList ↔ k ∈ bar.classList)) ∧
      bar2.width = numberToString level ++ "%" ∧
      (updateBattery level d).batteryText = some (numberToString level ++ "%") ∧
      (∀ n : Nat, n ≤ 100 → level = n →
        (updateBattery level d).batteryText = some (toString n ++ "%")) := by
  have hb := batteryBand_cases level
  have hmem : ∀ k, k ∈ classAdd (removeBands bar.classList) (batteryBand level) ↔
      (k ∈ bar.classList ∧ k ∉ bandClasses) ∨ k = batteryBand level := by
    intro k
    rw [mem_classAdd, mem_removeBands]
  have hband : batteryBand level ∈ bandClasses := by
    unfold batteryBand bandClasses
    split_ifs <;> simp
  have hnot : batteryBand level ∉ removeBands bar.classList := by
    intro h
    exact ((mem_removeBands _ _).mp h).2 hband
  refine ⟨⟨numberToString level ++ "%",
      classAdd (removeBands bar.classList) (batteryBand level)⟩,
    ?_, ?_, ?_, ?_, ?_, ?_, rfl, ?_, ?_⟩
  · simp only [updateBattery, hbar, htxt]
  · rw [hmem, ← hb.1]
    simp [bandClasses, eq_comm]
  · rw [hmem, ← hb.2.1]
    simp [bandClasses, eq_comm]
  · rw [hmem, ← hb.2.2]
    simp [bandClasses, eq_comm]
  · show ((classAdd (removeBands bar.classList) (batteryBand level)).filter
      (fun k => decide (k ∈ bandClasses))).length = 1
    have hnone : (removeBands bar.classList).filter (fun k => decide (k ∈ bandClasses)) = [] := by
      rw [List.filter_eq_nil_iff]
      intro k hk
      simpa using ((mem_removeBands _ _).mp hk).2
    simp only [classAdd, hnot, if_false, List.filter_append, hnone, List.nil_append]
    simp [List.filter, hband]
  · intro k hk
    show k ∈ classAdd (removeBands bar.classList) (batteryBand level) ↔ k ∈ bar.classList
    rw [hmem]
    constructor
    · rintro (h | h)
      · exact h.1
      · rw [h] at hk; exact absurd hband hk
    · intro h; exact Or.inl ⟨h, hk⟩
  · simp only [updateBattery, hbar, htxt]
  · intro n hn hlevel
    simp only [updateBattery, hbar, htxt]
    rw [hlevel, numberToString_upto_hundred n hn]

/-- Witness of C10 on the full page, whose bar carried `high` before: level 20 is low,
20.5 and 21 are medium, 60 is medium, 61 is high; the text of level 20 is "20%", of
20.5 "20.5%", and of `1e21` "1e+21%". -/
theorem updateBattery_band_witness :
    sampleBar 20 = some ⟨"20%", ["battery-level", "low"]⟩ ∧
    sampleBar (41 / 2) = some ⟨"20.5%", ["battery-level", "medium"]⟩ ∧
    sampleBar 21 = some ⟨"21%", ["battery-level", "medium"]⟩ ∧
    sampleBar 60 = some ⟨"60%", ["battery-level", "medium"]⟩ ∧
    sampleBar 61 = some ⟨"61%", ["battery-level", "high"]⟩ ∧
    sampleBar (10 ^ 21) = some ⟨"1e+21%", ["battery-level", "high"]⟩ ∧
    ∃ bar2 : BatteryBar,
      (updateBattery (41 / 2) fullDom).batteryLevel = some bar2 ∧
      ("low" ∈ bar2.classList ↔ (41 / 2 : ℚ) ≤ 20) ∧
      ("medium" ∈ bar2.classList ↔ (20 : ℚ) < 41 / 2 ∧ (41 / 2 : ℚ) ≤ 60) ∧
      ("high" ∈ bar2.classList ↔ (60 : ℚ) < 41 / 2) ∧
      (bar2.classList.filter (fun k => decide (k ∈ bandClasses))).length = 1 ∧
      (∀ k, k ∉ bandClasses → (k ∈ bar2.classList ↔ k ∈ ["battery-level", "high"])) ∧
      bar2.width = numberToString (41 / 2) ++ "%" ∧
      (updateBattery (41 / 2) fullDom).batteryText =
        some (numberToString (41 / 2) ++ "%") ∧
      (∀ n : Nat, n ≤ 100 → (41 / 2 : ℚ) = n →
        (updateBattery (41 / 2) fullDom).batteryText = some (toString n ++ "%")) :=
  ⟨by decide!, by decide!, by decide!, by decide!, by decide!, by decide!,
    updateBattery_band (41 / 2) fullDom ⟨"", ["battery-level", "high"]⟩ "" rfl rfl⟩

/-! ### Malformed grids -/

/-- The inner loop over a missing row throws at its first column. -/
theorem renderRow_missing (env : Environment) (r : Nat) (html : String)
    (hrow : env.grid[r]? = none) (hcols : 0 < env.cols) :
    renderRow env html r = Except.error undefinedRead := by
  obtain ⟨k, hk⟩ := Nat.exists_eq_succ_of_ne_zero (Nat.pos_iff_ne_zero.mp hcols)
  unfold renderRow
  rw [hk, List.range_succ_eq_map, List.foldlM_cons]
  simp only [renderCell, hrow]
  rfl

/-- With `cols > 0`, the loops over a grid with fewer rows than `rows` throw. -/
theorem renderGrid_missing_row (env : Environment) (hrows : env.grid.length < env.rows)
    (hcols : 0 < env.cols) :
    renderGrid env = Except.error undefinedRead := by
  obtain ⟨k, hk⟩ := Nat.exists_eq_add_of_lt hrows
  have hsplit : env.rows = env.grid.length + (k + 1) := by omega
  unfold renderGrid
  rw [hsplit, List.range_add, List.foldlM_append,
    foldlM_renderRow_ok env env.grid.length (Nat.le_refl _), List.range_succ_eq_map,
    List.map_cons]
  have hnone : env.grid[env.grid.length + 0]? = none := by simp
  simp only [bind, Except.bind, List.foldlM_cons]
  rw [renderRow_missing env _ _ hnone hcols]

/-- The loops run to their end when the grid has at least `rows` rows, and also when
`cols` is 0, where no row is read. -/
theorem renderGrid_ok_general (env : Environment)
    (h : env.rows ≤ env.grid.length ∨ env.cols = 0) :
    renderGrid env = Except.ok (concatAll ((List.range (env.rows * env.cols)).map
      (fun i => cellDiv (cellAt env (i / env.cols) (i % env.cols))))) := by
  rcases h with h | h
  · exact renderGrid_ok env h
  · have hrow : ∀ (n : Nat) (html : String),
        (List.range n).foldlM (renderRow env) html = Except.ok html := by
      intro n
      induction n with
      | zero => intro html; rfl
      | succ n ih =>
        intro html
        rw [List.range_succ, List.foldlM_append, ih]
        simp only [bind, Except.bind, List.foldlM_cons, List.foldlM_nil, renderRow, h,
          List.range_zero]
        rfl
    unfold renderGrid
    rw [hrow, h, Nat.mul_zero]
    rfl

/-- Away from the robot's position no cell gets the robot style. -/
theorem cellStyle_ne_robot (robotRow robotCol : Int) (r c : Nat) (cell : Option String)
    (h : ¬ ((r : Int) = robotRow ∧ (c : Int) = robotCol)) :
    cellStyle robotRow robotCol r c cell ≠ robotCell := by
  unfold cellStyle robotCell
  rw [if_neg h]
  split_ifs <;> decide

/-- A missing cell away from the robot's position gets the empty style. -/
theorem cellStyle_undefined (robotRow robotCol : Int) (r c : Nat)
    (h : ¬ ((r : Int) = robotRow ∧ (c : Int) = robotCol)) :
    cellStyle robotRow robotCol r c none = emptyCell := by
  unfold cellStyle emptyCell
  rw [if_neg h]
  simp

/-- C8 (amended): what rendering a snapshot with a malformed grid does on a page with a
grid container.  If the grid has fewer rows than `rows` and `cols > 0`, `renderState`
throws the `TypeError` of reading `undefined`, after it has written the column template
and before it writes the cells; nothing else on the page changes.  If the grid has at
least `rows` rows, no error is raised whatever the row lengths and the robot position
are: the grid gets `rows * cols` cells in row-major order, a cell the row does not have
shows as an empty cell unless the robot is there, and with the robot out of bounds no
cell shows the robot. -/
theorem malformed_grid_rendering (s : Snapshot) (d : Dom) (g : GridDiv)
    (hg : d.grid = some g) :
    (s.environment.grid.length < s.environment.rows → 0 < s.environment.cols →
      renderState s d =
        ⟨{ d with
            grid := some ⟨"repeat(" ++ toString s.environment.cols ++ ", 1fr)", g.innerHTML⟩ },
          some undefinedRead⟩) ∧
    (s.environment.rows ≤ s.environment.grid.length →
      (renderState s d).error = none ∧
      ∃ cells : List (String × String),
        (renderState s d).dom.grid = some
          ⟨"repeat(" ++ toString s.environment.cols ++ ", 1fr)",
            concatAll (cells.map cellDiv)⟩ ∧
        cells.length = s.environment.rows * s.environment.cols ∧
        (∀ r c, r < s.environment.rows → c < s.environment.cols →
          cells[r * s.environment.cols + c]? = some (cellAt s.environment r c) ∧
          ((∀ row, s.environment.grid[r]? = some row → row.length ≤ c) →
            ((r : Int), (c : Int)) ≠ s.environment.robot_position →
            cellAt s.environment r c = emptyCell)) ∧
        (¬ robotInBounds s.environment → ∀ cell ∈ cells, cell ≠ robotCell)) := by
  constructor
  · intro hrows hcols
    simp only [renderState, hg, renderGrid_missing_row _ hrows hcols]
  · intro hrows
    have hidx : ∀ r c, r < s.environment.rows → c < s.environment.cols →
        ((List.range (s.environment.rows * s.environment.cols)).map
          (fun i => cellAt s.environment (i / s.environment.cols) (i % s.environment.cols)))[
            r * s.environment.cols + c]? = some (cellAt s.environment r c) := by
      intro r c hr hc
      have hlt : r * s.environment.cols + c < s.environment.rows * s.environment.cols := by
        calc r * s.environment.cols + c < r * s.environment.cols + s.environment.cols := by omega
          _ = (r + 1) * s.environment.cols := (Nat.succ_mul _ _).symm
          _ ≤ s.environment.rows * s.environment.cols := Nat.mul_le_mul_right _ hr
      rw [List.getElem?_map, List.getElem?_range hlt, Option.map_some',
        (rowMajor_index _ r c hc).1, (rowMajor_index _ r c hc).2]
    have hrs := renderState_of_ok s d g _ hg (renderGrid_ok _ hrows)
    refine ⟨by rw [hrs], (List.range (s.environment.rows * s.environment.cols)).map
      (fun i => cellAt s.environment (i / s.environment.cols) (i % s.environment.cols)),
      ?_, by simp, ?_, ?_⟩
    · rw [hrs]
      simp only [updateStatus_grid, updateBattery_grid, renderPanel, List.map_map]
      rfl
    · intro r c hr hc
      refine ⟨hidx r c hr hc, ?_⟩
      intro hshort hne
      have hcell : (s.environment.grid[r]?.bind (fun row => row[c]?)) = none := by
        cases hrow : s.environment.grid[r]? with
        | none => rfl
        | some row =>
          show row[c]? = none
          exact List.getElem?_eq_none (hshort row hrow)
      unfold cellAt
      rw [hcell]
      apply cellStyle_undefined
      rintro ⟨h1, h2⟩
      exact hne (Prod.ext h1 h2)
    · intro hout cell hcell
      obtain ⟨i, hi, rfl⟩ := List.mem_map.mp hcell
      have hi2 : i < s.environment.rows * s.environment.cols := List.mem_range.mp hi
      have hcpos : 0 < s.environment.cols := by
        rcases Nat.eq_zero_or_pos s.environment.cols with h0 | h0
        · rw [h0] at hi2; simp at hi2
        · exact h0
      apply cellStyle_ne_robot
      rintro ⟨h1, h2⟩
      apply hout
      have hr : i / s.environment.cols < s.environment.rows :=
        Nat.div_lt_of_lt_mul (by rwa [Nat.mul_comm] at hi2)
      have hc : i % s.environment.cols < s.environment.cols := Nat.mod_lt _ hcpos
      unfold robotInBounds
      rw [← h1, ← h2]
      exact ⟨Int.ofNat_nonneg _, by exact_mod_cast hr, Int.ofNat_nonneg _,
        by exact_mod_cast hc⟩

/-- Witness of C8: the one-row grid throws after the column template is written; the
robot placed outside the room renders without error and without a robot cell. -/
theorem malformed_grid_rendering_witness :
    renderState shortGridSnapshot fullDom =
      ⟨{ fullDom with grid := some ⟨"repeat(" ++ toString 3 ++ ", 1fr)", ""⟩ },
        some undefinedRead⟩ ∧
    (renderState robotOutSnapshot fullDom).error = none :=
  ⟨(malformed_grid_rendering shortGridSnapshot fullDom _ rfl).1 (by decide) (by decide),
    ((malformed_grid_rendering robotOutSnapshot fullDom _ rfl).2 (by decide)).1⟩

/-- Counterexample to C8 as stated: a robot position out of bounds and a row shorter
than `cols` both render a grid without any error, and a grid with fewer rows than
`rows` ends in the engine's `TypeError`; no rendering fails with a `MalformedSnapshot`
error. -/
theorem malformed_grid_not_classified :
    ¬ robotInBounds robotOutSnapshot.environment ∧
    (renderState robotOutSnapshot fullDom).error = none ∧
    (renderState robotOutSnapshot fullDom).dom.grid = some ⟨"repeat(3, 1fr)",
      concatAll (List.map cellDiv [("cell base ", "🔌"), ("cell empty ", "⬜"),
        ("cell wall ", "🧱"), ("cell dirt ", "🟫"), ("cell dirt ", "🟫"),
        ("cell empty ", "⬜")])⟩ ∧
    shortRowSnapshot.environment.grid[1]? = some ["DIRT"] ∧
    (renderState shortRowSnapshot fullDom).error = none ∧
    (renderState shortRowSnapshot fullDom).dom.grid = some ⟨"repeat(3, 1fr)",
      concatAll (List.map cellDiv [("cell base ", "🔌"), ("cell empty ", "⬜"),
        ("cell wall ", "🧱"), ("cell dirt ", "🟫"), ("cell robot ", "🧹"),
        ("cell empty ", "⬜")])⟩ ∧
    shortGridSnapshot.environment.grid.length < shortGridSnapshot.environment.rows ∧
    (renderState shortGridSnapshot fullDom).error =
      some (JsError.typeError "Cannot read properties of undefined") := by
  refine ⟨by decide, by decide, rfl, by decide, by decide, rfl, by decide, by decide⟩

/-! ### Partial pages -/

theorem updateStatus_eq (s : Snapshot) (d : Dom) :
    updateStatus s d =
      { d with
        agentStatus := d.agentStatus.map
          (fun _ => ⟨(statusLabel s).1, (statusLabel s).2⟩) } := by
  unfold updateStatus
  cases h : d.agentStatus with
  | none => cases d; simp_all
  | some banner => simp

theorem updateBattery_eq (level : ℚ) (d : Dom) :
    updateBattery level d =
      { d with
        batteryLevel :=
          if d.batteryText.isSome then
            d.batteryLevel.map (fun bar =>
              ⟨numberToString level ++ "%",
                classAdd (removeBands bar.classList) (batteryBand level)⟩)
          else d.batteryLevel
        batteryText :=
          if d.batteryLevel.isSome then
            d.batteryText.map (fun _ => numberToString level ++ "%")
          else d.batteryText } := by
  unfold updateBattery
  cases hb : d.batteryLevel with
  | none => cases ht : d.batteryText <;> cases d <;> simp_all
  | some bar => cases ht : d.batteryText <;> cases d <;> simp_all

theorem fill_complete (d base : Dom) (hbase : base.complete) : (d.fill base).complete := by
  obtain ⟨h1, h2, h3, h4, h5, h6, h7, h8, h9, h10, h11, h12, h13, h14⟩ := hbase
  have key : ∀ {α : Type} (a b : Option α), b.isSome = true → (orFrom a b).isSome = true := by
    intro α a b hb
    cases a with
    | none => exact hb
    | some x => rfl
  exact ⟨key _ _ h1, key _ _ h2, key _ _ h3, key _ _ h4, key _ _ h5, key _ _ h6,
    key _ _ h7, key _ _ h8, key _ _ h9, key _ _ h10, key _ _ h11, key _ _ h12,
    key _ _ h13, key _ _ h14⟩

/-- C9 (amended): for a snapshot whose grid has at least `rows` rows (or with
`cols == 0`) and for every page, `renderState` raises no error.  Without the grid
container it updates nothing at all.  With the grid container, the grid, each readout,
the progress bar and the status banner that are present receive exactly the value they
receive on the complete page obtained by adding the missing regions; the battery bar
and the battery text receive theirs when both are present, and when one of the two is
absent the other is left as it was. -/
theorem render_partial_surface (s : Snapshot) (d base : Dom) (hbase : base.complete)
    (hrows : s.environment.rows ≤ s.environment.grid.length ∨ s.environment.cols = 0) :
    (d.fill base).complete ∧
    (renderState s d).error = none ∧
    (d.grid = none → (renderState s d).dom = d) ∧
    (d.grid.isSome →
      (renderState s d).dom.grid = (renderState s (d.fill base)).dom.grid ∧
      (d.stepCount.isSome →
        (renderState s d).dom.stepCount = (renderState s (d.fill base)).dom.stepCount) ∧
      (d.orientation.isSome →
        (renderState s d).dom.orientation = (renderState s (d.fill base)).dom.orientation) ∧
      (d.progress.isSome →
        (renderState s d).dom.progress = (renderState s (d.fill base)).dom.progress) ∧
      (d.lastAction.isSome →
        (renderState s d).dom.lastAction = (renderState s (d.fill base)).dom.lastAction) ∧
      (d.dirtyRemaining.isSome →
        (renderState s d).dom.dirtyRemaining = (renderState s (d.fill base)).dom.dirtyRemaining) ∧
      (d.progressBar.isSome →
        (renderState s d).dom.progressBar = (renderState s (d.fill base)).dom.progressBar) ∧
      (d.percBattery.isSome →
        (renderState s d).dom.percBattery = (renderState s (d.fill base)).dom.percBattery) ∧
      (d.percFront.isSome →
        (renderState s d).dom.percFront = (renderState s (d.fill base)).dom.percFront) ∧
      (d.percDirt.isSome →
        (renderState s d).dom.percDirt = (renderState s (d.fill base)).dom.percDirt) ∧
      (d.percBase.isSome →
        (renderState s d).dom.percBase = (renderState s (d.fill base)).dom.percBase) ∧
      (d.agentStatus.isSome →
        (renderState s d).dom.agentStatus = (renderState s (d.fill base)).dom.agentStatus) ∧
      (d.batteryLevel.isSome → d.batteryText.isSome →
        (renderState s d).dom.batteryLevel = (renderState s (d.fill base)).dom.batteryLevel ∧
        (renderState s d).dom.batteryText = (renderState s (d.fill base)).dom.batteryText) ∧
      (d.batteryLevel = none ∨ d.batteryText = none →
        (renderState s d).dom.batteryLevel = d.batteryLevel ∧
        (renderState s d).dom.batteryText = d.batteryText)) := by
  refine ⟨fill_complete d base hbase, ?_, ?_, ?_⟩
  · cases hg : d.grid with
    | none => simp [renderState, hg]
    | some g => rw [renderState_of_ok s d g _ hg (renderGrid_ok_general _ hrows)]
  · intro hg
    simp [renderState, hg]
  · intro hgs
    obtain ⟨g, hg⟩ := Option.isSome_iff_exists.mp hgs
    have hg2 : (d.fill base).grid = some g := by simp [Dom.fill, orFrom, hg]
    rw [renderState_of_ok s d g _ hg (renderGrid_ok_general _ hrows),
      renderState_of_ok s (d.fill base) g _ hg2 (renderGrid_ok_general _ hrows)]
    simp only [updateStatus_eq, updateBattery_eq, renderPanel, Dom.fill]
    refine ⟨trivial, ?_, ?_, ?_, ?_, ?_, ?_, ?_, ?_, ?_, ?_, ?_, ?_, ?_⟩
    · intro h
      obtain ⟨x, hx⟩ := Option.isSome_iff_exists.mp h
      simp [hx, orFrom, setText]
    · intro h
      obtain ⟨x, hx⟩ := Option.isSome_iff_exists.mp h
      simp [hx, orFrom, setText]
    · intro h
      obtain ⟨x, hx⟩ := Option.isSome_iff_exists.mp h
      simp [hx, orFrom, setText]
    · intro h
      obtain ⟨x, hx⟩ := Option.isSome_iff_exists.mp h
      simp [hx, orFrom, setText]
    · intro h
      obtain ⟨x, hx⟩ := Option.isSome_iff_exists.mp h
      simp [hx, orFrom, setText]
    · intro h
      obtain ⟨x, hx⟩ := Option.isSome_iff_exists.mp h
      simp [hx, orFrom, setText]
    · intro h
      obtain ⟨x, hx⟩ := Option.isSome_iff_exists.mp h
      simp [hx, orFrom, setText]
    · intro h
      obtain ⟨x, hx⟩ := Option.isSome_iff_exists.mp h
      simp [hx, orFrom, setText]
    · intro h
      obtain ⟨x, hx⟩ := Option.isSome_iff_exists.mp h
      simp [hx, orFrom, setText]
    · intro h
      obtain ⟨x, hx⟩ := Option.isSome_iff_exists.mp h
      simp [hx, orFrom, setText]
    · intro h
      obtain ⟨x, hx⟩ := Option.isSome_iff_exists.mp h
      simp [hx, orFrom, setText]
    · intro h1 h2
      obtain ⟨x, hx⟩ := Option.isSome_iff_exists.mp h1
      obtain ⟨y, hy⟩ := Option.isSome_iff_exists.mp h2
      simp [hx, hy, orFrom]
    · rintro (h | h)
      · simp [h]
      · simp [h]

/-- Witness of C9 on the page without the battery text: no error, the step count is the
one of the complete page, and the battery bar keeps its old width and band. -/
theorem render_partial_surface_witness :
    fullDom.complete ∧
    (renderState sampleSnapshot noBatteryTextDom).error = none ∧
    (renderState sampleSnapshot noBatteryTextDom).dom.stepCount =
      (renderState sampleSnapshot (noBatteryTextDom.fill fullDom)).dom.stepCount ∧
    (renderState sampleSnapshot noBatteryTextDom).dom.batteryLevel =
      noBatteryTextDom.batteryLevel :=
  have h := render_partial_surface sampleSnapshot noBatteryTextDom fullDom (by decide)
    (by decide)
  ⟨by decide, h.2.1, (h.2.2.2 rfl).2.1 rfl,
    ((h.2.2.2 rfl).2.2.2.2.2.2.2.2.2.2.2.2.2 (Or.inr rfl)).1⟩

/-- Counterexample to C9 as stated.  On the page without the grid container the step
count and the status banner are present and yet not updated; without the battery text
the battery bar is not updated; without the battery bar the battery text is not
updated; and on the complete page a grid with fewer rows than `rows` makes
`renderState` raise an error. -/
theorem partial_surface_skips_present_regions :
    noGridDom.stepCount = some "0" ∧
    (renderState sampleSnapshot noGridDom).dom.stepCount = some "0" ∧
    (renderState sampleSnapshot (noGridDom.fill fullDom)).dom.stepCount = some "4" ∧
    (renderState sampleSnapshot noGridDom).dom.agentStatus = some ⟨"En espera", ""⟩ ∧
    (renderState sampleSnapshot (noGridDom.fill fullDom)).dom.agentStatus =
      some ⟨"🧽 Limpiando", "linear-gradient(90deg, #0ea5e9, #22c55e)"⟩ ∧
    (renderState sampleSnapshot noBatteryTextDom).dom.batteryLevel =
      some ⟨"", ["battery-level", "high"]⟩ ∧
    (renderState sampleSnapshot (noBatteryTextDom.fill fullDom)).dom.batteryLevel =
      some ⟨"57%", ["battery-level", "medium"]⟩ ∧
    (renderState sampleSnapshot noBatteryBarDom).dom.batteryText = some "" ∧
    (renderState sampleSnapshot (noBatteryBarDom.fill fullDom)).dom.batteryText =
      some "57%" ∧
    (renderState shortGridSnapshot fullDom).error = some undefinedRead := by
  refine ⟨by decide, by decide, by decide, by decide, by decide, by decide, by decide!,
    by decide, by decide!, by decide⟩

/-! ### Numbers -/

theorem pow2_eq_zpow (k : Int) : pow2 k = (2 : ℚ) ^ k := by
  unfold pow2
  split_ifs with h
  · obtain ⟨n, rfl⟩ := Int.eq_ofNat_of_zero_le h
    simp
  · have hk : k < 0 := not_le.mp h
    obtain ⟨n, hn⟩ := Int.eq_ofNat_of_zero_le (Int.neg_nonneg_of_nonpos hk.le)
    have hk2 : k = -(n : Int) := by omega
    subst hk2
    simp

theorem pow2_pos (k : Int) : 0 < pow2 k := by
  rw [pow2_eq_zpow]
  positivity

theorem roundHalfEven_ge_floor (x : ℚ) : ⌊x⌋ ≤ roundHalfEven x := by
  unfold roundHalfEven
  simp only
  split_ifs <;> omega

theorem roundHalfEven_le_floor_succ (x : ℚ) : roundHalfEven x ≤ ⌊x⌋ + 1 := by
  unfold roundHalfEven
  simp only
  split_ifs <;> omega

/-- Rounding does not step over an integer from below. -/
theorem roundHalfEven_le_of_le (x : ℚ) (m : Int) (h : x ≤ m) : roundHalfEven x ≤ m := by
  have hf : ⌊x⌋ ≤ m := Int.floor_le_floor h |>.trans (by simp)
  rcases lt_or_eq_of_le hf with hlt | heq
  · exact (roundHalfEven_le_floor_succ x).trans (by omega)
  · have hx : x = m := le_antisymm h (by rw [← heq]; exact Int.floor_le x)
    subst hx
    unfold roundHalfEven
    simp

/-- Rounding does not step over an integer from above. -/
theorem le_roundHalfEven_of_le (x : ℚ) (m : Int) (h : (m : ℚ) ≤ x) : m ≤ roundHalfEven x :=
  (Int.le_floor.mpr h).trans (roundHalfEven_ge_floor x)

theorem log2Fuel_spec (fuel n : Nat) (hn : 1 ≤ n) (hf : n ≤ fuel) :
    2 ^ log2Fuel fuel n ≤ n ∧ n < 2 ^ (log2Fuel fuel n + 1) := by
  induction fuel generalizing n with
  | zero => omega
  | succ fuel ih =>
    unfold log2Fuel
    split_ifs with h2
    · constructor
      · simpa using hn
      · simpa using h2
    · have h2' : 2 ≤ n := by omega
      have hdiv : 1 ≤ n / 2 := by omega
      have hle : n / 2 ≤ fuel := by omega
      obtain ⟨h1, h3⟩ := ih (n / 2) hdiv hle
      constructor
      · rw [Nat.pow_succ]; omega
      · rw [Nat.pow_succ]; omega

theorem natLog2_spec (n : Nat) (hn : 1 ≤ n) :
    2 ^ natLog2 n ≤ n ∧ n < 2 ^ (natLog2 n + 1) :=
  log2Fuel_spec n n hn (Nat.le_refl n)

theorem abs_eq_natAbs_div_den (x : ℚ) : |x| = (x.num.natAbs : ℚ) / (x.den : ℚ) := by
  conv_lhs => rw [← Rat.num_div_den x]
  rw [abs_div, Nat.abs_cast, Nat.cast_natAbs, Int.cast_abs]

/-- The exponent `floorLog2` finds is not too large: `2^k <= |x|`. -/
theorem pow2_floorLog2_le (x : ℚ) (hx : x ≠ 0) : pow2 (floorLog2 x) ≤ |x| := by
  unfold floorLog2
  simp only
  split_ifs with h
  · exact h
  · have hn : 1 ≤ x.num.natAbs := by
      have : x.num ≠ 0 := Rat.num_ne_zero.mpr hx
      omega
    have hd : 1 ≤ x.den := x.den_pos
    have h1 := (natLog2_spec _ hn).1
    have h2 := (natLog2_spec _ hd).2
    rw [abs_eq_natAbs_div_den, pow2_eq_zpow]
    have hexp : ((natLog2 x.num.natAbs : Int) - (natLog2 x.den : Int) - 1) =
        (natLog2 x.num.natAbs : Int) - ((natLog2 x.den + 1 : Nat) : Int) := by
      push_cast; ring
    rw [hexp, zpow_sub₀ (two_ne_zero), zpow_natCast, zpow_natCast]
    have h1q : ((2 : ℚ) ^ natLog2 x.num.natAbs) ≤ (x.num.natAbs : ℚ) := by exact_mod_cast h1
    have h2q : (x.den : ℚ) ≤ (2 : ℚ) ^ (natLog2 x.den + 1) := by exact_mod_cast h2.le
    have hdq : (0 : ℚ) < x.den := by exact_mod_cast hd
    exact div_le_div₀ (by positivity) h1q hdq h2q

theorem roundAt_le (x : ℚ) (e M : Int) (h : x ≤ M * pow2 e) :
    (roundHalfEven (x / pow2 e) : ℚ) * pow2 e ≤ M * pow2 e := by
  have hp := pow2_pos e
  have h1 : x / pow2 e ≤ M := (div_le_iff₀ hp).mpr h
  have h2 : roundHalfEven (x / pow2 e) ≤ M := roundHalfEven_le_of_le _ _ h1
  have h3 : (roundHalfEven (x / pow2 e) : ℚ) ≤ M := by exact_mod_cast h2
  exact mul_le_mul_of_nonneg_right h3 hp.le

theorem le_roundAt (x : ℚ) (e M : Int) (h : (M : ℚ) * pow2 e ≤ x) :
    (M : ℚ) * pow2 e ≤ (roundHalfEven (x / pow2 e) : ℚ) * pow2 e := by
  have hp := pow2_pos e
  have h1 : (M : ℚ) ≤ x / pow2 e := (le_div_iff₀ hp).mpr h
  have h2 : M ≤ roundHalfEven (x / pow2 e) := le_roundHalfEven_of_le _ _ h1
  have h3 : (M : ℚ) ≤ roundHalfEven (x / pow2 e) := by exact_mod_cast h2
  exact mul_le_mul_of_nonneg_right h3 hp.le

/-- Rounding to binary64 keeps the sign. -/
theorem roundDouble_nonneg (x : ℚ) (h : 0 ≤ x) : 0 ≤ roundDouble x := by
  unfold roundDouble
  split_ifs with h0
  · exact le_refl _
  · have := le_roundAt x (max (floorLog2 x - 52) (-1074)) 0 (by simpa using h)
    simpa using this

theorem roundDouble_nonpos (x : ℚ) (h : x ≤ 0) : roundDouble x ≤ 0 := by
  unfold roundDouble
  split_ifs with h0
  · exact le_refl _
  · have := roundAt_le x (max (floorLog2 x - 52) (-1074)) 0 (by simpa using h)
    simpa using this

/-- The value 100 is a multiple of `2^e` for every exponent `e <= 2`. -/
theorem hundred_multiple (e : Int) (he : e ≤ 2) :
    (100 : ℚ) = ((25 * 2 ^ (2 - e).toNat : Int) : ℚ) * pow2 e := by
  obtain ⟨n, hn⟩ := Int.eq_ofNat_of_zero_le (by omega : 0 ≤ 2 - e)
  have he2 : e = 2 - (n : Int) := by omega
  subst he2
  rw [pow2_eq_zpow, hn]
  simp only [Int.toNat_ofNat]
  push_cast
  rw [zpow_sub₀ (two_ne_zero), zpow_natCast]
  field_simp
  ring

theorem pow2_mono (a b : Int) (h : a ≤ b) : pow2 a ≤ pow2 b := by
  rw [pow2_eq_zpow, pow2_eq_zpow]
  exact zpow_le_zpow_right₀ (by norm_num) h

/-- Rounding to binary64 does not step over 100 from below. -/
theorem roundDouble_le_hundred (x : ℚ) (h : x ≤ 100) : roundDouble x ≤ 100 := by
  rcases le_or_lt x 0 with hx | hx
  · exact (roundDouble_nonpos x hx).trans (by norm_num)
  · have hne : x ≠ 0 := ne_of_gt hx
    have hlog : floorLog2 x < 7 := by
      by_contra hge
      have h7 : pow2 7 ≤ pow2 (floorLog2 x) := pow2_mono _ _ (not_lt.mp hge)
      have hle := pow2_floorLog2_le x hne
      rw [abs_of_pos hx] at hle
      have h128 : pow2 7 = 128 := by rw [pow2_eq_zpow]; norm_num
      rw [h128] at h7
      linarith
    have he : max (floorLog2 x - 52) (-1074) ≤ 2 := by omega
    unfold roundDouble
    rw [if_neg hne]
    have hm := hundred_multiple _ he
    have hb := roundAt_le x (max (floorLog2 x - 52) (-1074)) _ (by rw [← hm]; exact h)
    rw [← hm] at hb
    exact hb

/-- Rounding to binary64 does not step over 100 from above. -/
theorem hundred_le_roundDouble (x : ℚ) (h : 100 ≤ x) : 100 ≤ roundDouble x := by
  have hx : 0 < x := by linarith
  have hne : x ≠ 0 := ne_of_gt hx
  unfold roundDouble
  rw [if_neg hne]
  rcases le_or_lt (max (floorLog2 x - 52) (-1074)) 2 with he | he
  · have hm := hundred_multiple _ he
    have hb := le_roundAt x (max (floorLog2 x - 52) (-1074)) _ (by rw [← hm]; exact h)
    rw [← hm] at hb
    exact hb
  · have hmax : max (floorLog2 x - 52) (-1074) = floorLog2 x - 52 := by omega
    rw [hmax] at he ⊢
    have hle := pow2_floorLog2_le x hne
    rw [abs_of_pos hx] at hle
    have hsplit : pow2 (floorLog2 x) = ((2 ^ 52 : Int) : ℚ) * pow2 (floorLog2 x - 52) := by
      rw [pow2_eq_zpow, pow2_eq_zpow, zpow_sub₀ (two_ne_zero)]
      push_cast
      have : (2 : ℚ) ^ (52 : Int) = 2 ^ 52 := by norm_cast
      rw [this]
      field_simp
      ring
    rw [hsplit] at hle
    have hb := le_roundAt x (floorLog2 x - 52) (2 ^ 52) hle
    have hone : (1 : ℚ) ≤ pow2 (floorLog2 x - 52) := by
      have := pow2_mono 0 (floorLog2 x - 52) (by omega)
      have h0 : pow2 0 = 1 := by rw [pow2_eq_zpow]; norm_num
      rwa [h0] at this
    have hbig : (100 : ℚ) ≤ ((2 ^ 52 : Int) : ℚ) * pow2 (floorLog2 x - 52) := by
      have h52 : (100 : ℚ) ≤ ((2 ^ 52 : Int) : ℚ) := by norm_num
      nlinarith
    exact hbig.trans hb

theorem pow2_1024_gt : (100 : ℚ) < pow2 1024 := by
  have h := pow2_mono 7 1024 (by norm_num)
  have h128 : pow2 7 = 128 := by rw [pow2_eq_zpow]; norm_num
  rw [h128] at h
  linarith

/-- The Number for a real value between 0 and 100 is finite and between 0 and 100. -/
theorem toNumber_of_mem (x : ℚ) (h0 : 0 ≤ x) (h100 : x ≤ 100) :
    toNumber x = JsNumber.finite (roundDouble x) ∧
    0 ≤ roundDouble x ∧ roundDouble x ≤ 100 := by
  have hlo := roundDouble_nonneg x h0
  have hhi := roundDouble_le_hundred x h100
  have hbig := pow2_1024_gt
  refine ⟨?_, hlo, hhi⟩
  unfold toNumber
  simp only
  rw [if_neg (by linarith), if_neg (by linarith)]

/-! ### Panel readouts -/

/-- What `renderState` leaves in the panel regions when `#grid` exists and the loops
run to their end. -/
theorem renderState_readouts (s : Snapshot) (d : Dom) (g : GridDiv) (hg : d.grid = some g)
    (hrows : s.environment.rows ≤ s.environment.grid.length ∨ s.environment.cols = 0) :
    (renderState s d).error = none ∧
    (renderState s d).dom.progress =
      setText d.progress (toFixed1 (jsMul s.progress 100) ++ "%") ∧
    (renderState s d).dom.progressBar = d.progressBar.map (fun _ =>
      jsMax (JsNumber.finite 0) (jsMin (JsNumber.finite 100) (jsMul s.progress 100))) ∧
    (renderState s d).dom.percBattery =
      setText d.percBattery (strOr (percOrEmpty s.last_perception).battery "-") ∧
    (renderState s d).dom.percFront =
      setText d.percFront (flagText (percOrEmpty s.last_perception).front_obstacle) ∧
    (renderState s d).dom.percDirt =
      setText d.percDirt (flagText (percOrEmpty s.last_perception).on_dirt) ∧
    (renderState s d).dom.percBase =
      setText d.percBase (flagText (percOrEmpty s.last_perception).on_base) ∧
    (renderState s d).dom.agentStatus =
      d.agentStatus.map (fun _ => ⟨(statusLabel s).1, (statusLabel s).2⟩) := by
  rw [renderState_of_ok s d g _ hg (renderGrid_ok_general _ hrows)]
  simp only [updateStatus_eq, updateBattery_eq, renderPanel]
  refine ⟨?_, ?_, ?_, ?_, ?_, ?_, ?_, ?_⟩ <;> first | rfl | trivial

/-- The clamp `Math.max(0, Math.min(100, x))` of the rounded product. -/
theorem clamp_cases (p : ℚ) :
    ∃ w : ℚ,
      jsMax (JsNumber.finite 0) (jsMin (JsNumber.finite 100) (jsMul p 100)) =
        JsNumber.finite w ∧
      0 ≤ w ∧ w ≤ 100 ∧
      (0 ≤ p → p ≤ 1 → jsMul p 100 = JsNumber.finite w) ∧
      (p < 0 → w = 0) ∧ (1 < p → w = 100) := by
  have hbig := pow2_1024_gt
  have hlo : p < 0 → roundDouble (p * 100) ≤ 0 := fun h =>
    roundDouble_nonpos _ (by linarith)
  have hhi : 1 < p → 100 ≤ roundDouble (p * 100) := fun h =>
    hundred_le_roundDouble _ (by linarith)
  have hmid : 0 ≤ p → p ≤ 1 →
      0 ≤ roundDouble (p * 100) ∧ roundDouble (p * 100) ≤ 100 := fun h0 h1 =>
    (toNumber_of_mem (p * 100) (by linarith) (by linarith)).2
  unfold jsMul toNumber
  simp only
  split_ifs with h1 h2
  · refine ⟨100, by simp [jsMin, jsMax], by norm_num, le_refl _, ?_, ?_, fun _ => rfl⟩
    · intro h0 hle
      have := (hmid h0 hle).2
      linarith
    · intro hneg
      have := hlo hneg
      linarith
  · refine ⟨0, by simp [jsMin, jsMax], le_refl _, by norm_num, ?_, fun _ => rfl, ?_⟩
    · intro h0 hle
      have := (hmid h0 hle).1
      linarith
    · intro hgt
      have := hhi hgt
      linarith
  · refine ⟨max 0 (min 100 (roundDouble (p * 100))), by simp [jsMin, jsMax],
      le_max_left _ _, max_le (by norm_num) (min_le_left _ _), ?_, ?_, ?_⟩
    · intro h0 hle
      obtain ⟨ha, hb⟩ := hmid h0 hle
      rw [min_eq_right hb, max_eq_right ha]
    · intro hneg
      have := hlo hneg
      rw [min_eq_right (by linarith), max_eq_left this]
    · intro hgt
      have := hhi hgt
      rw [min_eq_left this, max_eq_right (by norm_num)]

/-- C12: on a page with the grid container and the progress bar, when rendering raises
no error, the bar width in percent is `Math.max(0, Math.min(100, progress * 100))`: a
finite number in [0, 100], equal to the product `progress * 100` (as the Number the
multiplication gives) whenever `0 <= progress <= 1`, equal to 0 for a negative progress
and to 100 for a progress above 1. -/
theorem progress_bar_width_clamped (s : Snapshot) (d : Dom) (g : GridDiv) (old : JsNumber)
    (hg : d.grid = some g) (hbar : d.progressBar = some old)
    (hrows : s.environment.rows ≤ s.environment.grid.length ∨ s.environment.cols = 0) :
    ∃ w : ℚ,
      (renderState s d).dom.progressBar = some (JsNumber.finite w) ∧
      JsNumber.finite w =
        jsMax (JsNumber.finite 0) (jsMin (JsNumber.finite 100) (jsMul s.progress 100)) ∧
      0 ≤ w ∧ w ≤ 100 ∧
      (0 ≤ s.progress → s.progress ≤ 1 → jsMul s.progress 100 = JsNumber.finite w) ∧
      (s.progress < 0 → w = 0) ∧
      (1 < s.progress → w = 100) := by
  obtain ⟨w, hw, h0, h100, hmid, hneg, hbig⟩ := clamp_cases s.progress
  refine ⟨w, ?_, hw.symm, h0, h100, hmid, hneg, hbig⟩
  rw [(renderState_readouts s d g hg hrows).2.2.1, hbar, ← hw]
  rfl

/-- Witness of C12: a progress of 0.25 gives a width of 25, a progress of 1.5 a width
of 100. -/
theorem progress_bar_width_clamped_witness :
    (renderState sampleSnapshot fullDom).dom.progressBar = some (JsNumber.finite 25) ∧
    (literalSnapshot (3 / 2)).progress = 3 / 2 ∧
    ∃ w : ℚ,
      (renderState (literalSnapshot (3 / 2)) fullDom).dom.progressBar =
        some (JsNumber.finite w) ∧ w = 100 :=
  have h := progress_bar_width_clamped (literalSnapshot (3 / 2)) fullDom _ _ rfl rfl
    (by decide)
  have h32 : (literalSnapshot (3 / 2)).progress = 3 / 2 := by decide!
  ⟨by decide!, h32, h.choose, h.choose_spec.1,
    h.choose_spec.2.2.2.2.2.2 (by rw [h32]; norm_num)⟩

theorem jsMul_finite (p q : ℚ) (h : jsMul p 100 = JsNumber.finite q) :
    q = roundDouble (p * 100) := by
  unfold jsMul toNumber at h
  simp only at h
  split_ifs at h
  exact (JsNumber.finite.inj h).symm

/-- The nearest tenth: the integer `n` that `toFixed(1)` prints is within one half of
ten times the magnitude. -/
theorem nearest_tenth (a : ℚ) (ha : 0 ≤ a) :
    |((⌊a * 10 + 1 / 2⌋.toNat : Nat) : ℚ) / 10 - a| ≤ 1 / 20 := by
  have hnn : 0 ≤ ⌊a * 10 + 1 / 2⌋ := Int.floor_nonneg.mpr (by positivity)
  have hcast : ((⌊a * 10 + 1 / 2⌋.toNat : Nat) : ℚ) = (⌊a * 10 + 1 / 2⌋ : ℚ) := by
    have := Int.toNat_of_nonneg hnn
    exact_mod_cast this
  rw [hcast, abs_le]
  have h1 := Int.floor_le (a * 10 + 1 / 2)
  have h2 := Int.lt_floor_add_one (a * 10 + 1 / 2)
  constructor <;> linarith

/-- C11 (amended): on a page with the grid container and the progress readout, when
rendering raises no error and the product `progress * 100` is a finite Number of
magnitude below `10^21`, the progress text is a sign, the decimal digits of an integer,
a point, exactly one digit and `%`.  The number shown is the tenth nearest to the
product; it is not clamped: for a progress above 1 it is 100.0 or more, and a negative
progress gives a product that is not positive. -/
theorem progress_text_one_decimal (s : Snapshot) (d : Dom) (g : GridDiv) (old : String)
    (hg : d.grid = some g) (hp : d.progress = some old)
    (hrows : s.environment.rows ≤ s.environment.grid.length ∨ s.environment.cols = 0)
    (q : ℚ) (hq : jsMul s.progress 100 = JsNumber.finite q) (hlt : |q| < 10 ^ 21) :
    ∃ n : Nat,
      (renderState s d).dom.progress =
        some ((if q < 0 then "-" else "") ++ toString (n / 10) ++ "." ++
          toString (n % 10) ++ "%") ∧
      n % 10 < 10 ∧
      |(n : ℚ) / 10 - abs q| ≤ 1 / 20 ∧
      (1 < s.progress → 1000 ≤ n) ∧
      (s.progress < 0 → q ≤ 0) := by
  have habs : (if q < 0 then -q else q) = |q| := by
    split_ifs with h
    · exact (abs_of_neg h).symm
    · exact (abs_of_nonneg (not_lt.mp h)).symm
  refine ⟨⌊|q| * 10 + 1 / 2⌋.toNat, ?_, Nat.mod_lt _ (by norm_num),
    nearest_tenth _ (abs_nonneg q), ?_, ?_⟩
  · rw [(renderState_readouts s d g hg hrows).2.1, hp, hq]
    simp only [setText, Option.map_some', toFixed1, habs, if_neg (not_le.mpr hlt)]
  · intro hgt
    have hq2 := jsMul_finite _ _ hq
    have h100 : 100 ≤ q := by
      rw [hq2]; exact hundred_le_roundDouble _ (by linarith)
    have hqa : |q| = q := abs_of_nonneg (by linarith)
    have hfl : (1000 : Int) ≤ ⌊|q| * 10 + 1 / 2⌋ := by
      apply Int.le_floor.mpr
      rw [hqa]
      push_cast
      linarith
    omega
  · intro hneg
    rw [jsMul_finite _ _ hq]
    exact roundDouble_nonpos _ (by linarith)

/-- Witness of C11: the JSON number 0.456 renders "45.6%" and the number 1 renders
"100.0%". -/
theorem progress_text_one_decimal_witness :
    (renderState (literalSnapshot (456 / 1000)) fullDom).dom.progress = some "45.6%" ∧
    (renderState (literalSnapshot 1) fullDom).dom.progress = some "100.0%" ∧
    ∃ n : Nat,
      (renderState (literalSnapshot 1) fullDom).dom.progress =
        some ((if (100 : ℚ) < 0 then "-" else "") ++ toString (n / 10) ++ "." ++
          toString (n % 10) ++ "%") ∧
      n % 10 < 10 ∧
      |(n : ℚ) / 10 - abs (100 : ℚ)| ≤ 1 / 20 ∧
      (1 < (literalSnapshot 1).progress → 1000 ≤ n) ∧
      ((literalSnapshot 1).progress < 0 → (100 : ℚ) ≤ 0) :=
  ⟨by decide!, by decide!,
    progress_text_one_decimal (literalSnapshot 1) fullDom _ "" rfl rfl (by decide) 100
      (by decide!) (by norm_num)⟩

/-- Counterexample to C11 as stated: a progress of `1e19` gives the product `1e21`,
which `toFixed(1)` prints in exponent form; the readout is "1e+21%", with no digit
after a decimal point. -/
theorem progress_text_exponent_form :
    jsMul hugeProgressSnapshot.progress 100 = JsNumber.finite (10 ^ 21) ∧
    (renderState hugeProgressSnapshot fullDom).dom.progress = some "1e+21%" := by
  constructor
  · decide!
  · decide!

/-- C13: when `last_perception` is absent, on a page with the grid container and when
rendering raises no error, each of the four perception readouts that exists shows the
placeholder; the classifier takes the on-base and low-battery tests as false: its text
is the one rules 1, 2, 5 and 6 alone give, never charging and never seeking base, and
the banner shows it. -/
theorem absent_perception_placeholders (s : Snapshot) (d : Dom) (g : GridDiv)
    (hg : d.grid = some g)
    (hrows : s.environment.rows ≤ s.environment.grid.length ∨ s.environment.cols = 0)
    (hperc : s.last_perception = none) :
    (renderState s d).dom.percBattery = d.percBattery.map (fun _ => placeholder) ∧
    (renderState s d).dom.percFront = d.percFront.map (fun _ => placeholder) ∧
    (renderState s d).dom.percDirt = d.percDirt.map (fun _ => placeholder) ∧
    (renderState s d).dom.percBase = d.percBase.map (fun _ => placeholder) ∧
    ¬ percOnBase s ∧ ¬ percBatteryLow s ∧
    (statusLabel s).1 = specStatusWithoutPerception s ∧
    (statusLabel s).1 ≠ labelCharging ∧
    (statusLabel s).1 ≠ labelSeekingBase ∧
    (∀ banner, d.agentStatus = some banner →
      ∃ b : StatusDiv, (renderState s d).dom.agentStatus = some b ∧
        b.textContent = specStatusWithoutPerception s) := by
  obtain ⟨-, -, -, h1, h2, h3, h4, h5⟩ := renderState_readouts s d g hg hrows
  have hclean := lastAction_clean_iff s.last_action
  have hlabel : (statusLabel s).1 = specStatusWithoutPerception s := by
    have e1 : truthyFlag (percOrEmpty (none : Option Perception)).on_base = false := rfl
    have e2 : strOr (percOrEmpty (none : Option Perception)).battery "high" = "high" := rfl
    have e3 : (decide ("high" = "low") && !false) = false := by decide
    simp only [statusLabel, specStatusWithoutPerception, hperc, e1, e2, e3, hclean,
      Bool.false_and, Bool.false_eq_true, if_false, labelTaskComplete,
      labelBatteryDepleted, labelCleaning, labelTraversing]
    split_ifs <;> rfl
  have hspec : specStatusWithoutPerception s ≠ labelCharging ∧
      specStatusWithoutPerception s ≠ labelSeekingBase := by
    unfold specStatusWithoutPerception
    split_ifs <;> exact ⟨by decide, by decide⟩
  refine ⟨?_, ?_, ?_, ?_, ?_, ?_, hlabel, ?_, ?_, ?_⟩
  · rw [h1, hperc]; rfl
  · rw [h2, hperc]; rfl
  · rw [h3, hperc]; rfl
  · rw [h4, hperc]; rfl
  · rintro ⟨p, hp, -⟩; rw [hperc] at hp; cases hp
  · rintro ⟨p, hp, -⟩; rw [hperc] at hp; cases hp
  · rw [hlabel]; exact hspec.1
  · rw [hlabel]; exact hspec.2
  · intro banner hb
    rw [h5, hb]
    exact ⟨_, rfl, hlabel⟩

/-- Witness of C13 on the full page with the snapshot that precedes the first step. -/
theorem absent_perception_placeholders_witness :
    freshSnapshot.last_perception = none ∧
    (renderState freshSnapshot fullDom).dom.percBattery = some "-" ∧
    (renderState freshSnapshot fullDom).dom.percFront = some "-" ∧
    (renderState freshSnapshot fullDom).dom.percDirt = some "-" ∧
    (renderState freshSnapshot fullDom).dom.percBase = some "-" ∧
    (statusLabel freshSnapshot).1 = "🚗 Recorriendo la habitación" :=
  have h := absent_perception_placeholders freshSnapshot fullDom _ rfl (by decide) rfl
  ⟨rfl, h.1, h.2.1, h.2.2.1, h.2.2.2.1, h.2.2.2.2.2.2.1⟩

theorem flagText_spec (key : Option Bool) : flagReadoutSpec key (flagText key) := by
  unfold flagReadoutSpec flagText placeholder
  cases key with
  | none => simp
  | some v => cases v <;> simp

theorem percOrEmpty_key (s : Snapshot) (key : Perception → Option Bool)
    (hkey : key ⟨none, none, none, none⟩ = none) :
    key (percOrEmpty s.last_perception) = perceptionKey s key := by
  unfold perceptionKey percOrEmpty
  cases s.last_perception with
  | none => simpa using hkey
  | some p => rfl

/-- C14: on a page with the grid container and when rendering raises no error, each of
the three flag readouts that exists shows "Sí" when its key is present with the value
true, "No" when it is present with the value false, and the placeholder when the key
or the whole record is absent; it is a yes/no string exactly when the key is present.
The text of a readout is a function of its own key alone: two snapshots that agree on
that key give the same readout whatever the other keys are. -/
theorem perception_flag_readouts (s : Snapshot) (d : Dom) (g : GridDiv)
    (hg : d.grid = some g)
    (hrows : s.environment.rows ≤ s.environment.grid.length ∨ s.environment.cols = 0) :
    (∃ text, (renderState s d).dom.percFront = d.percFront.map (fun _ => text) ∧
      flagReadoutSpec (perceptionKey s (fun p => p.front_obstacle)) text) ∧
    (∃ text, (renderState s d).dom.percDirt = d.percDirt.map (fun _ => text) ∧
      flagReadoutSpec (perceptionKey s (fun p => p.on_dirt)) text) ∧
    (∃ text, (renderState s d).dom.percBase = d.percBase.map (fun _ => text) ∧
      flagReadoutSpec (perceptionKey s (fun p => p.on_base)) text) ∧
    (∀ s2 : Snapshot,
      s2.environment.rows ≤ s2.environment.grid.length ∨ s2.environment.cols = 0 →
      (perceptionKey s2 (fun p => p.front_obstacle) =
          perceptionKey s (fun p => p.front_obstacle) →
        (renderState s2 d).dom.percFront = (renderState s d).dom.percFront) ∧
      (perceptionKey s2 (fun p => p.on_dirt) = perceptionKey s (fun p => p.on_dirt) →
        (renderState s2 d).dom.percDirt = (renderState s d).dom.percDirt) ∧
      (perceptionKey s2 (fun p => p.on_base) = perceptionKey s (fun p => p.on_base) →
        (renderState s2 d).dom.percBase = (renderState s d).dom.percBase)) := by
  have hread : ∀ t : Snapshot,
      t.environment.rows ≤ t.environment.grid.length ∨ t.environment.cols = 0 →
      (renderState t d).dom.percFront =
        d.percFront.map (fun _ => flagText (perceptionKey t (fun p => p.front_obstacle))) ∧
      (renderState t d).dom.percDirt =
        d.percDirt.map (fun _ => flagText (perceptionKey t (fun p => p.on_dirt))) ∧
      (renderState t d).dom.percBase =
        d.percBase.map (fun _ => flagText (perceptionKey t (fun p => p.on_base))) := by
    intro t ht
    obtain ⟨-, -, -, -, h2, h3, h4, -⟩ := renderState_readouts t d g hg ht
    rw [h2, h3, h4, percOrEmpty_key t (fun p => p.front_obstacle) rfl,
      percOrEmpty_key t (fun p => p.on_dirt) rfl, percOrEmpty_key t (fun p => p.on_base) rfl]
    exact ⟨rfl, rfl, rfl⟩
  obtain ⟨h1, h2, h3⟩ := hread s hrows
  refine ⟨⟨_, h1, flagText_spec _⟩, ⟨_, h2, flagText_spec _⟩, ⟨_, h3, flagText_spec _⟩, ?_⟩
  intro s2 hrows2
  obtain ⟨k1, k2, k3⟩ := hread s2 hrows2
  refine ⟨?_, ?_, ?_⟩
  · intro hk; rw [k1, h1, hk]
  · intro hk; rw [k2, h2, hk]
  · intro hk; rw [k3, h3, hk]

/-- Witness of C14: a perception without `front_obstacle`, with `on_dirt` false and
`on_base` true shows the placeholder, "No" and "Sí". -/
theorem perception_flag_readouts_witness :
    perceptionKey partialPerceptionSnapshot (fun p => p.front_obstacle) = none ∧
    (renderState partialPerceptionSnapshot fullDom).dom.percFront = some "-" ∧
    (renderState partialPerceptionSnapshot fullDom).dom.percDirt = some "No" ∧
    (renderState partialPerceptionSnapshot fullDom).dom.percBase = some "Sí" ∧
    ∃ text,
      (renderState partialPerceptionSnapshot fullDom).dom.percFront =
        fullDom.percFront.map (fun _ => text) ∧
      flagReadoutSpec (perceptionKey partialPerceptionSnapshot (fun p => p.front_obstacle))
        text :=
  ⟨rfl, by decide, by decide, by decide,
    (perception_flag_readouts partialPerceptionSnapshot fullDom _ rfl (by decide)).1⟩

/-! ### Cells by kind -/

/-- The style of a cell away from the robot, by the kind read from the grid. -/
theorem cellStyle_kind (robotRow robotCol : Int) (r c : Nat) (cell : Option String)
    (h : ¬ ((r : Int) = robotRow ∧ (c : Int) = robotCol)) :
    (cell = some "WALL" → cellStyle robotRow robotCol r c cell = ("cell wall ", "🧱")) ∧
    (cell = some "DIRT" → cellStyle robotRow robotCol r c cell = ("cell dirt ", "🟫")) ∧
    (cell = some "BASE" → cellStyle robotRow robotCol r c cell = ("cell base ", "🔌")) ∧
    (cell ≠ some "WALL" → cell ≠ some "DIRT" → cell ≠ some "BASE" →
      cellStyle robotRow robotCol r c cell = emptyCell) := by
  unfold cellStyle emptyCell
  rw [if_neg h]
  refine ⟨?_, ?_, ?_, ?_⟩
  · intro hc; subst hc; simp
  · intro hc; subst hc; simp
  · intro hc; subst hc; simp
  · intro h1 h2 h3; simp [h1, h2, h3]

/-- Reading the row-major list of cells at an index. -/
theorem rowMajor_getElem (env : Environment) (i : Nat) (cell : String × String) :
    ((List.range (env.rows * env.cols)).map
      (fun i => cellAt env (i / env.cols) (i % env.cols)))[i]? = some cell ↔
    i < env.rows * env.cols ∧ cellAt env (i / env.cols) (i % env.cols) = cell := by
  rw [List.getElem?_map]
  by_cases hi : i < env.rows * env.cols
  · rw [List.getElem?_range hi]
    simp [hi]
  · rw [List.getElem?_eq_none (by simpa using hi)]
    simp [hi]

theorem rowMajor_lt (rows cols r c : Nat) (hr : r < rows) (hc : c < cols) :
    r * cols + c < rows * cols := by
  calc r * cols + c < r * cols + cols := by omega
    _ = (r + 1) * cols := (Nat.succ_mul _ _).symm
    _ ≤ rows * cols := Nat.mul_le_mul_right _ hr

/-- C16: on a page with the grid container, for a grid with at least `rows` rows, every
cell `(r, c)` with `r < rows`, `c < cols` other than the robot's position shows the
style of the kind read from the grid: WALL gives class `wall` and 🧱, DIRT gives `dirt`
and 🟫, BASE gives `base` and 🔌, anything else gives `empty` and ⬜.  A cell that shows
the robot is at the robot's position, so the robot appears at most once. -/
theorem cells_show_their_kind (s : Snapshot) (d : Dom) (g : GridDiv)
    (hg : d.grid = some g) (hrows : s.environment.rows ≤ s.environment.grid.length) :
    ∃ cells : List (String × String),
      (renderState s d).dom.grid = some
        ⟨"repeat(" ++ toString s.environment.cols ++ ", 1fr)",
          concatAll (cells.map cellDiv)⟩ ∧
      cells.length = s.environment.rows * s.environment.cols ∧
      (∀ r c, r < s.environment.rows → c < s.environment.cols →
        ((r : Int), (c : Int)) ≠ s.environment.robot_position →
        ∀ kind : Option String,
          kind = s.environment.grid[r]?.bind (fun row => row[c]?) →
          (kind = some "WALL" →
            cells[r * s.environment.cols + c]? = some ("cell wall ", "🧱")) ∧
          (kind = some "DIRT" →
            cells[r * s.environment.cols + c]? = some ("cell dirt ", "🟫")) ∧
          (kind = some "BASE" →
            cells[r * s.environment.cols + c]? = some ("cell base ", "🔌")) ∧
          (kind ≠ some "WALL" → kind ≠ some "DIRT" → kind ≠ some "BASE" →
            cells[r * s.environment.cols + c]? = some ("cell empty ", "⬜"))) ∧
      (∀ i : Nat, cells[i]? = some ("cell robot ", "🧹") →
        (((i / s.environment.cols : Nat) : Int), ((i % s.environment.cols : Nat) : Int)) =
          s.environment.robot_position) ∧
      (∀ i j : Nat, cells[i]? = some ("cell robot ", "🧹") →
        cells[j]? = some ("cell robot ", "🧹") → i = j) := by
  have hpos : ∀ i, ((List.range (s.environment.rows * s.environment.cols)).map
      (fun i => cellAt s.environment (i / s.environment.cols) (i % s.environment.cols)))[i]? =
        some ("cell robot ", "🧹") →
      (((i / s.environment.cols : Nat) : Int), ((i % s.environment.cols : Nat) : Int)) =
        s.environment.robot_position := by
    intro i hi
    obtain ⟨-, hcell⟩ := (rowMajor_getElem _ _ _).mp hi
    by_contra hne
    refine cellStyle_ne_robot _ _ _ _ _ ?_ hcell
    rintro ⟨h1, h2⟩
    exact hne (Prod.ext h1 h2)
  refine ⟨(List.range (s.environment.rows * s.environment.cols)).map
    (fun i => cellAt s.environment (i / s.environment.cols) (i % s.environment.cols)),
    ?_, by simp, ?_, hpos, ?_⟩
  · rw [renderState_of_ok s d g _ hg (renderGrid_ok _ hrows)]
    simp only [updateStatus_grid, updateBattery_grid, renderPanel, List.map_map]
    rfl
  · intro r c hr hc hne kind hkind
    have hnot : ¬ ((r : Int) = s.environment.robot_position.1 ∧
        (c : Int) = s.environment.robot_position.2) := by
      rintro ⟨h1, h2⟩
      exact hne (Prod.ext h1 h2)
    have hget : ∀ cell, cellAt s.environment r c = cell →
        ((List.range (s.environment.rows * s.environment.cols)).map
          (fun i => cellAt s.environment (i / s.environment.cols)
            (i % s.environment.cols)))[r * s.environment.cols + c]? = some cell := by
      intro cell hcell
      rw [rowMajor_getElem]
      refine ⟨rowMajor_lt _ _ _ _ hr hc, ?_⟩
      rw [(rowMajor_index _ r c hc).1, (rowMajor_index _ r c hc).2]
      exact hcell
    obtain ⟨k1, k2, k3, k4⟩ := cellStyle_kind s.environment.robot_position.1
      s.environment.robot_position.2 r c kind hnot
    subst hkind
    exact ⟨fun h => hget _ (k1 h), fun h => hget _ (k2 h), fun h => hget _ (k3 h),
      fun h1 h2 h3 => hget _ (k4 h1 h2 h3)⟩
  · intro i j hi hj
    have h1 := hpos i hi
    have h2 := hpos j hj
    rw [← h2] at h1
    have hd : i / s.environment.cols = j / s.environment.cols := by
      have := congrArg Prod.fst h1
      simp only at this
      exact_mod_cast this
    have hm : i % s.environment.cols = j % s.environment.cols := by
      have := congrArg Prod.snd h1
      simp only at this
      exact_mod_cast this
    rw [← Nat.div_add_mod i s.environment.cols, ← Nat.div_add_mod j s.environment.cols,
      hd, hm]

/-- Witness of C16 on the 2 x 3 sample room: the wall at `(0, 2)` and the dirty cell at
`(1, 0)` show as such, and only index 4 shows the robot. -/
theorem cells_show_their_kind_witness :
    sampleEnv.grid[0]?.bind (fun row => row[2]?) = some "WALL" ∧
    ∃ cells : List (String × String),
      (renderState sampleSnapshot fullDom).dom.grid = some
        ⟨"repeat(" ++ toString 3 ++ ", 1fr)", concatAll (cells.map cellDiv)⟩ ∧
      cells.length = 2 * 3 ∧
      cells[0 * 3 + 2]? = some ("cell wall ", "🧱") ∧
      (∀ i j : Nat, cells[i]? = some ("cell robot ", "🧹") →
        cells[j]? = some ("cell robot ", "🧹") → i = j) :=
  have h := cells_show_their_kind sampleSnapshot fullDom _ rfl (by decide)
  ⟨rfl, h.choose, h.choose_spec.1, h.choose_spec.2.1,
    (h.choose_spec.2.2.1 0 2 (by decide) (by decide) (by decide) _ rfl).1 rfl,
    h.choose_spec.2.2.2.2⟩

/-! ### Empty rooms -/

/-- C17: when `rows == 0` or `cols == 0`, whatever the grid array and the robot
position are, the loops produce the empty markup and raise no error; on a page with the
grid container `renderState` raises no error and leaves zero cells in `#grid`. -/
theorem empty_room_renders_empty (s : Snapshot) (d : Dom) (g : GridDiv)
    (hg : d.grid = some g) (hzero : s.environment.rows = 0 ∨ s.environment.cols = 0) :
    renderGrid s.environment = Except.ok "" ∧
    (renderState s d).error = none ∧
    (renderState s d).dom.grid = some
      ⟨"repeat(" ++ toString s.environment.cols ++ ", 1fr)", ""⟩ := by
  have hgen : s.environment.rows ≤ s.environment.grid.length ∨ s.environment.cols = 0 := by
    rcases hzero with h | h
    · left; omega
    · right; exact h
  have hprod : s.environment.rows * s.environment.cols = 0 := by
    rcases hzero with h | h <;> simp [h]
  have hgrid : renderGrid s.environment = Except.ok "" := by
    rw [renderGrid_ok_general _ hgen, hprod]
    rfl
  refine ⟨hgrid, ?_, ?_⟩
  · rw [renderState_of_ok s d g _ hg hgrid]
  · rw [renderState_of_ok s d g _ hg hgrid]
    simp only [updateStatus_grid, updateBattery_grid, renderPanel]

/-- Witness of C17: a room of no rows with the robot at `(-1, 7)`, and a room of no
columns whose grid array is shorter than `rows`. -/
theorem empty_room_renders_empty_witness :
    ¬ robotInBounds emptyRoomSnapshot.environment ∧
    (renderState emptyRoomSnapshot fullDom).error = none ∧
    (renderState emptyRoomSnapshot fullDom).dom.grid =
      some ⟨"repeat(" ++ toString 3 ++ ", 1fr)", ""⟩ ∧
    noColumnsSnapshot.environment.grid.length < noColumnsSnapshot.environment.rows ∧
    (renderState noColumnsSnapshot fullDom).error = none :=
  ⟨by decide, (empty_room_renders_empty emptyRoomSnapshot fullDom _ rfl (Or.inl rfl)).2.1,
    (empty_room_renders_empty emptyRoomSnapshot fullDom _ rfl (Or.inl rfl)).2.2,
    by decide, (empty_room_renders_empty noColumnsSnapshot fullDom _ rfl (Or.inr rfl)).2.1⟩

/-! ### Idempotence -/

theorem batteryBand_mem (level : ℚ) : batteryBand level ∈ bandClasses := by
  unfold batteryBand bandClasses
  split_ifs <;> simp

theorem removeBands_idem (classList : List String) :
    removeBands (removeBands classList) = removeBands classList := by
  unfold removeBands
  rw [List.filter_filter]
  simp

/-- Setting the band twice leaves the class list of the first time. -/
theorem classAdd_removeBands_idem (classList : List String) (level : ℚ) :
    classAdd (removeBands (classAdd (removeBands classList) (batteryBand level)))
      (batteryBand level) =
    classAdd (removeBands classList) (batteryBand level) := by
  have hband := batteryBand_mem level
  have hnot : batteryBand level ∉ removeBands classList := fun h =>
    ((mem_removeBands _ _).mp h).2 hband
  have hadd : classAdd (removeBands classList) (batteryBand level) =
      removeBands classList ++ [batteryBand level] := by
    unfold classAdd
    rw [if_neg hnot]
  have hsingle : removeBands [batteryBand level] = [] := by
    unfold removeBands
    rw [List.filter_eq_nil_iff]
    intro k hk
    rw [List.mem_singleton] at hk
    subst hk
    have := hband
    simp only [bandClasses, List.mem_cons, List.mem_singleton, List.not_mem_nil,
      or_false] at this
    rcases this with h | h | h <;> simp [h]
  have hrem : removeBands (removeBands classList ++ [batteryBand level]) =
      removeBands classList := by
    have happ : ∀ a b : List String, removeBands (a ++ b) = removeBands a ++ removeBands b := by
      intro a b
      unfold removeBands
      exact List.filter_append _ _
    rw [happ, removeBands_idem, hsingle, List.append_nil]
  rw [hadd, hrem, hadd]

/-- The three panel updates applied to their own result change nothing. -/
theorem panel_updates_idem (s : Snapshot) (d : Dom) :
    updateStatus s (updateBattery s.agent.battery_level (renderPanel s
      (updateStatus s (updateBattery s.agent.battery_level (renderPanel s d))))) =
    updateStatus s (updateBattery s.agent.battery_level (renderPanel s d)) := by
  simp only [updateStatus_eq, updateBattery_eq, renderPanel, setText]
  rcases d with ⟨grid, stepCount, orientation, progress, lastAction, dirtyRemaining,
    progressBar, percBattery, percFront, percDirt, percBase, batteryLevel, batteryText,
    agentStatus, btnStep, btnAuto⟩
  cases batteryLevel <;> cases batteryText <;>
    simp [Option.map_map, Function.comp_def, classAdd_removeBands_idem]

/-- C15: rendering is idempotent.  For every snapshot and every prior page, a second
`renderState` with the same snapshot gives the page and the outcome of the first: the
grid cells and column template, all readouts, the progress bar width, the battery
bar's width and classes, the battery text and the status banner; this also holds when
the page lacks regions and when the render throws. -/
theorem render_idempotent (s : Snapshot) (v : Dom) :
    renderState s (renderState s v).dom = renderState s v := by
  cases hg : v.grid with
  | none => simp [renderState, hg]
  | some g =>
    cases hr : renderGrid s.environment with
    | error e => simp [renderState, hg, hr]
    | ok html =>
      rw [renderState_of_ok s v g html hg hr]
      have hgrid : (updateStatus s (updateBattery s.agent.battery_level (renderPanel s
          { v with
            grid := some ⟨"repeat(" ++ toString s.environment.cols ++ ", 1fr)", html⟩ }))).grid =
          some ⟨"repeat(" ++ toString s.environment.cols ++ ", 1fr)", html⟩ := by
        simp only [updateStatus_grid, updateBattery_grid, renderPanel]
      rw [renderState_of_ok s _ _ html hgrid hr]
      have hsame : ∀ d : Dom, ∀ gd : GridDiv, d.grid = some gd → { d with grid := some gd } = d := by
        intro d gd h
        cases d
        simp_all
      rw [hsame _ _ hgrid, panel_updates_idem]

/-! ### Failed renders in the step handlers -/

/-- What both continuations do when `renderState` throws: the snapshot has been
replaced, the document is the one left at the throw, one line is logged, and the
terminal test is not reached. -/
theorem then_thrown (ctl : Controller) (s : Snapshot) (e : JsError)
    (herr : (renderState s ctl.dom).error = some e) :
    stepThen s ctl =
      { ctl with
        state := s
        dom := (renderState s ctl.dom).dom
        console := ctl.console ++ [⟨"Error en step_json:", Failure.thrown e⟩] } ∧
    tickThen s ctl =
      { ctl with
        state := s
        dom := (renderState s ctl.dom).dom
        console := ctl.console ++ [⟨"Error en step_json:", Failure.thrown e⟩] } := by
  constructor
  · simp only [stepThen, herr, logFailure]
  · simp only [tickThen, herr, logFailure]

/-- The outcome of `renderState` on a grid with fewer rows than `rows`. -/
theorem renderState_missing_row (s : Snapshot) (d : Dom) (g : GridDiv)
    (hg : d.grid = some g) (hrows : s.environment.grid.length < s.environment.rows)
    (hcols : 0 < s.environment.cols) :
    renderState s d =
      ⟨{ d with
          grid := some ⟨"repeat(" ++ toString s.environment.cols ++ ", 1fr)", g.innerHTML⟩ },
        some undefinedRead⟩ := by
  simp only [renderState, hg, renderGrid_missing_row _ hrows hcols]

/-- C18 (amended): when a step response, manual or timed, carries a grid with fewer
rows than `rows` (and `cols > 0`) and the page has the grid container, the render
fails; the grid's cells and every other region keep the values they had before, while
the column template has already been overwritten from `cols`; the failure is logged
with the same `console.error` line as a failed step request. -/
theorem failed_render_in_step (ctl : Controller) (s : Snapshot) (g : GridDiv)
    (hg : ctl.dom.grid = some g)
    (hrows : s.environment.grid.length < s.environment.rows)
    (hcols : 0 < s.environment.cols) (c : Controller)
    (hc : c = stepSettled (FetchResult.json s) ctl ∨
      c = tickSettled (FetchResult.json s) ctl) :
    c.dom = { ctl.dom with
      grid := some ⟨"repeat(" ++ toString s.environment.cols ++ ", 1fr)", g.innerHTML⟩ } ∧
    (∃ g2 : GridDiv, c.dom.grid = some g2 ∧ g2.innerHTML = g.innerHTML ∧
      g2.gridTemplateColumns = "repeat(" ++ toString s.environment.cols ++ ", 1fr)") ∧
    c.console = ctl.console ++ [⟨"Error en step_json:", Failure.thrown undefinedRead⟩] ∧
    (∀ reason, (stepSettled (FetchResult.rejected reason) ctl).console =
      ctl.console ++ [⟨"Error en step_json:", Failure.rejected reason⟩]) := by
  have hrs := renderState_missing_row s ctl.dom g hg hrows hcols
  have herr : (renderState s ctl.dom).error = some undefinedRead := by rw [hrs]
  have hthen := then_thrown { ctl with pending := ctl.pending - 1 } s undefinedRead herr
  have hc2 : c =
      { ctl with
        pending := ctl.pending - 1
        state := s
        dom := (renderState s ctl.dom).dom
        console := ctl.console ++ [⟨"Error en step_json:", Failure.thrown undefinedRead⟩] } := by
    rcases hc with h | h
    · rw [h]; simp only [stepSettled]; exact hthen.1
    · rw [h]; simp only [tickSettled]; exact hthen.2
  have hdom : c.dom = { ctl.dom with
      grid := some ⟨"repeat(" ++ toString s.environment.cols ++ ", 1fr)", g.innerHTML⟩ } := by
    rw [hc2]
    show (renderState s ctl.dom).dom = _
    rw [hrs]
  have hcons : c.console =
      ctl.console ++ [⟨"Error en step_json:", Failure.thrown undefinedRead⟩] := by
    rw [hc2]
  exact ⟨hdom,
    ⟨⟨"repeat(" ++ toString s.environment.cols ++ ", 1fr)", g.innerHTML⟩, by rw [hdom], rfl,
      rfl⟩,
    hcons, fun reason => rfl⟩

/-- Witness of C18: a timed response declaring 5 columns with one row of the two,
received by the running sample controller. -/
theorem failed_render_in_step_witness :
    (tickWith wideShortGridSnapshot runningCtl).dom.grid =
      some ⟨"repeat(" ++ toString 5 ++ ", 1fr)",
        concatAll (List.map cellDiv [("cell base ", "🔌"), ("cell empty ", "⬜"),
          ("cell wall ", "🧱"), ("cell dirt ", "🟫"), ("cell robot ", "🧹"),
          ("cell empty ", "⬜")])⟩ ∧
    (tickWith wideShortGridSnapshot runningCtl).console =
      [⟨"Error en step_json:", Failure.thrown undefinedRead⟩] :=
  have h := failed_render_in_step (timerFire firstHandle runningCtl) wideShortGridSnapshot
    ⟨"repeat(3, 1fr)",
      concatAll (List.map cellDiv [("cell base ", "🔌"), ("cell empty ", "⬜"),
        ("cell wall ", "🧱"), ("cell dirt ", "🟫"), ("cell robot ", "🧹"),
        ("cell empty ", "⬜")])⟩
    rfl (by decide) (by decide) (tickWith wideShortGridSnapshot runningCtl) (Or.inr rfl)
  ⟨by rw [h.1]; rfl, h.2.2.1⟩

/-- Counterexample to C18 as stated: the failed render of a response declaring 5
columns leaves the cells of `#grid` as they were and changes its column template from
`repeat(3, 1fr)` to `repeat(5, 1fr)`. -/
theorem failed_render_overwrites_template :
    wideShortGridSnapshot.environment.grid.length < wideShortGridSnapshot.environment.rows ∧
    (runningCtl.dom.grid.map (fun g => g.gridTemplateColumns)) = some "repeat(3, 1fr)" ∧
    ((tickWith wideShortGridSnapshot runningCtl).dom.grid.map
      (fun g => g.gridTemplateColumns)) = some "repeat(5, 1fr)" ∧
    ((tickWith wideShortGridSnapshot runningCtl).dom.grid.map (fun g => g.innerHTML)) =
      (runningCtl.dom.grid.map (fun g => g.innerHTML)) ∧
    (renderState wideShortGridSnapshot runningCtl.dom).error = some undefinedRead := by
  refine ⟨by decide, by decide, by decide, rfl, by decide⟩

/-! ### Run-state invariant -/

/-- The invariant looks at the run state, the handle, the timers and the last handle
only. -/
theorem ctlInvariant_congr (c c2 : Controller) (h1 : c2.autoRunning = c.autoRunning)
    (h2 : c2.intervalId = c.intervalId) (h3 : c2.timers = c.timers)
    (h4 : c2.lastHandle = c.lastHandle) (h : ctlInvariant c) : ctlInvariant c2 := by
  unfold ctlInvariant at h ⊢
  rw [h1, h2, h3, h4]
  exact h

/-- After `stopAuto` the invariant holds, provided the live timers were the held
one. -/
theorem ctlInvariant_stopAuto (c : Controller)
    (htimers : c.timers = (match c.intervalId with
      | some id => [⟨id, 400⟩]
      | none => [])) :
    ctlInvariant (stopAuto c) := by
  obtain ⟨-, -, h3, h4, h5, -, -, -⟩ := stopAuto_fields c
  have hnil : (stopAuto c).timers = [] := by
    rw [h5]
    apply filter_held_eq_nil
    intro t ht
    rw [htimers] at ht
    cases hid : c.intervalId with
    | none => rw [hid] at ht; simp at ht
    | some id =>
      rw [hid] at ht
      simp only [List.mem_singleton] at ht
      rw [ht]
  unfold ctlInvariant
  rw [h3, h4, hnil]
  exact ⟨rfl, rfl, fun t ht => absurd ht (List.not_mem_nil t)⟩

theorem ctlInvariant_then (c : Controller) (s : Snapshot) (h : ctlInvariant c) :
    ctlInvariant (stepThen s c) ∧ ctlInvariant (tickThen s c) := by
  have hstop : ctlInvariant
      (stopAuto { c with state := s, dom := (renderState s c.dom).dom }) :=
    ctlInvariant_stopAuto _ h.2.1
  have hsame : ctlInvariant { c with state := s, dom := (renderState s c.dom).dom } :=
    ctlInvariant_congr c _ rfl rfl rfl rfl h
  have hlog : ∀ e, ctlInvariant
      (logFailure e { c with state := s, dom := (renderState s c.dom).dom }) := fun e =>
    ctlInvariant_congr c _ rfl rfl rfl rfl h
  constructor
  · unfold stepThen
    simp only
    cases (renderState s c.dom).error with
    | some e => exact hlog _
    | none =>
      simp only
      split_ifs
      · exact hstop
      · exact hsame
  · unfold tickThen
    simp only
    cases (renderState s c.dom).error with
    | some e => exact hlog _
    | none =>
      simp only
      split_ifs
      · exact hstop
      · exact hsame

theorem ctlInvariant_settled (c : Controller) (res : FetchResult) (h : ctlInvariant c) :
    ctlInvariant (stepSettled res c) ∧ ctlInvariant (tickSettled res c) := by
  have hp : ctlInvariant { c with pending := c.pending - 1 } :=
    ctlInvariant_congr c _ rfl rfl rfl rfl h
  cases res with
  | rejected reason =>
    exact ⟨ctlInvariant_congr c _ rfl rfl rfl rfl h, ctlInvariant_congr c _ rfl rfl rfl rfl h⟩
  | undecodable reason =>
    exact ⟨ctlInvariant_congr c _ rfl rfl rfl rfl h, ctlInvariant_congr c _ rfl rfl rfl rfl h⟩
  | json s => exact ctlInvariant_then _ s hp

theorem ctlInvariant_btnAutoClick (c : Controller) (h : ctlInvariant c) :
    ctlInvariant (btnAutoClick c) := by
  cases hb : c.dom.btnAuto with
  | none =>
    have : btnAutoClick c = c := by simp only [btnAutoClick, hb]
    rw [this]; exact h
  | some label =>
    cases hr : c.autoRunning with
    | true =>
      rw [btnAutoClick_running c label hb hr]
      exact ctlInvariant_stopAuto _ h.2.1
    | false =>
      rw [btnAutoClick_idle c label hb hr]
      obtain ⟨h1, h2, h3⟩ := h
      have hnone : c.intervalId = none := by
        rw [hr] at h1
        cases hid : c.intervalId with
        | none => rfl
        | some id => rw [hid] at h1; simp at h1
      have hnil : c.timers = [] := by rw [h2, hnone]
      unfold ctlInvariant
      simp only [hnil, List.nil_append, Option.isSome_some, List.mem_singleton, true_and]
      intro t ht
      rw [ht]

theorem ctlInvariant_handle (c : Controller) (ev : Event) (h : ctlInvariant c) :
    ctlInvariant (handle c ev) := by
  cases ev with
  | autoClick => exact ctlInvariant_btnAutoClick c h
  | stepClick =>
    unfold handle btnStepClick
    simp only
    cases c.dom.btnStep with
    | none => exact h
    | some label => exact ctlInvariant_congr c _ rfl rfl rfl rfl h
  | fire id =>
    unfold handle timerFire
    simp only
    split_ifs
    · exact ctlInvariant_congr c _ rfl rfl rfl rfl h
    · exact h
  | stepDone res => exact (ctlInvariant_settled c res h).1
  | tickDone res => exact (ctlInvariant_settled c res h).2

theorem ctlInvariant_run (c : Controller) (events : List Event) (h : ctlInvariant c) :
    ctlInvariant (run c events) := by
  induction events generalizing c with
  | nil => exact h
  | cons ev rest ih => exact ih (handle c ev) (ctlInvariant_handle c ev h)

theorem ctlInvariant_init (d : Dom) (initial : Snapshot) (c0 : Controller)
    (hinit : init d initial = some c0) : ctlInvariant c0 := by
  unfold init at hinit
  simp only at hinit
  cases herr : (renderState initial d).error with
  | some e => rw [herr] at hinit; cases hinit
  | none =>
    rw [herr] at hinit
    simp only [Option.some.injEq] at hinit
    subst hinit
    exact ⟨rfl, rfl, fun t ht => absurd ht (List.not_mem_nil t)⟩

/-- A settled request never turns an idle controller into an auto-running one. -/
theorem settled_keeps_idle (c : Controller) (res : FetchResult)
    (h : c.autoRunning = false) :
    (stepSettled res c).autoRunning = false ∧ (tickSettled res c).autoRunning = false := by
  have hthen : ∀ s, (stepThen s { c with pending := c.pending - 1 }).autoRunning = false ∧
      (tickThen s { c with pending := c.pending - 1 }).autoRunning = false := by
    intro s
    constructor
    · unfold stepThen
      simp only
      cases (renderState s c.dom).error with
      | some e => exact h
      | none =>
        simp only
        split_ifs
        · exact (stopAuto_fields _).2.2.1
        · exact h
    · unfold tickThen
      simp only
      cases (renderState s c.dom).error with
      | some e => exact h
      | none =>
        simp only
        split_ifs
        · exact (stopAuto_fields _).2.2.1
        · exact h
  cases res with
  | rejected reason => exact ⟨h, h⟩
  | undecodable reason => exact ⟨h, h⟩
  | json s => exact hthen s

/-- C19: in every state the controller reaches from the page load by clicks on the two
buttons, timer firings and settled requests (answered, rejected or undecodable),
`autoRunning` is true exactly when a timer handle is held; at most one timer is live,
it is the held one and its period is 400 ms, so no toggle leaks a timer; and no settled
request turns an idle controller into an auto-running one. -/
theorem run_state_matches_timer (d : Dom) (initial : Snapshot) (c0 : Controller)
    (hinit : init d initial = some c0) (events : List Event) :
    ((run c0 events).autoRunning = true ↔ (run c0 events).intervalId.isSome = true) ∧
    (run c0 events).timers.length ≤ 1 ∧
    (∀ t ∈ (run c0 events).timers,
      (run c0 events).intervalId = some t.id ∧ t.period = 400) ∧
    ((run c0 events).intervalId = none → (run c0 events).timers = []) ∧
    (∀ res, (run c0 events).autoRunning = false →
      (stepSettled res (run c0 events)).autoRunning = false ∧
      (tickSettled res (run c0 events)).autoRunning = false) := by
  obtain ⟨h1, h2, -⟩ := ctlInvariant_run c0 events (ctlInvariant_init d initial c0 hinit)
  refine ⟨by rw [h1], ?_, ?_, ?_, fun res h => settled_keeps_idle _ res h⟩
  · rw [h2]
    cases (run c0 events).intervalId <;> simp
  · intro t ht
    rw [h2] at ht
    cases hid : (run c0 events).intervalId with
    | none => rw [hid] at ht; simp at ht
    | some id =>
      rw [hid] at ht
      simp only [List.mem_singleton] at ht
      rw [ht]
      exact ⟨rfl, rfl⟩
  · intro hnone
    rw [h2, hnone]

/-- Witness of C19 on the sample session, at its end and after its first seven
events. -/
theorem run_state_matches_timer_witness :
    init fullDom sampleSnapshot = some idleCtl ∧
    ((run idleCtl sampleSession).autoRunning = true ↔
      (run idleCtl sampleSession).intervalId.isSome = true) ∧
    (run idleCtl sampleSession).timers.length ≤ 1 ∧
    (run idleCtl (sampleSession.take 7)).autoRunning = true ∧
    (run idleCtl (sampleSession.take 7)).timers = [⟨⟨2, Nat.succ_pos 1⟩, 400⟩] ∧
    (run idleCtl sampleSession).autoRunning = false ∧
    (run idleCtl sampleSession).timers = [] :=
  have h := run_state_matches_timer fullDom sampleSnapshot idleCtl rfl sampleSession
  ⟨rfl, h.1, h.2.1, by decide, by decide, by decide, by decide⟩

/-- C20: in both step-response handlers the snapshot is replaced before the render and
the terminal test comes after it.  For every decoded response whose rendering raises
an error, the current snapshot is already the new one, the document is the one left
at the throw, the error is logged, and `autoRunning`, `intervalId` and the live timers
are unchanged whatever `done` and `battery_level` are; a live timer still fires, so an
auto-running controller keeps ticking. -/
theorem thrown_render_skips_terminal_test (ctl : Controller) (s : Snapshot) (e : JsError)
    (herr : (renderState s ctl.dom).error = some e) (c : Controller)
    (hc : c = stepSettled (FetchResult.json s) ctl ∨
      c = tickSettled (FetchResult.json s) ctl) :
    c.state = s ∧
    c.dom = (renderState s ctl.dom).dom ∧
    c.autoRunning = ctl.autoRunning ∧
    c.intervalId = ctl.intervalId ∧
    c.timers = ctl.timers ∧
    c.console = ctl.console ++ [⟨"Error en step_json:", Failure.thrown e⟩] ∧
    (∀ t ∈ ctl.timers, (timerFire t.id c).pending = c.pending + 1) := by
  have hthen := then_thrown { ctl with pending := ctl.pending - 1 } s e herr
  have hc2 : c =
      { ctl with
        pending := ctl.pending - 1
        state := s
        dom := (renderState s ctl.dom).dom
        console := ctl.console ++ [⟨"Error en step_json:", Failure.thrown e⟩] } := by
    rcases hc with h | h
    · rw [h]; simp only [stepSettled]; exact hthen.1
    · rw [h]; simp only [tickSettled]; exact hthen.2
  have htimers : c.timers = ctl.timers := by rw [hc2]
  refine ⟨by rw [hc2], by rw [hc2], by rw [hc2], by rw [hc2], htimers, by rw [hc2], ?_⟩
  intro t ht
  have hany : c.timers.any (fun u => decide (u.id = t.id)) = true := by
    rw [htimers, List.any_eq_true]
    exact ⟨t, ht, by simp⟩
  simp only [timerFire, hany, if_true]

/-- Witness of C20: the running sample controller receives a timed response with an
empty battery whose grid lacks a row; it stays auto-running with its timer. -/
theorem thrown_render_skips_terminal_test_witness :
    terminal shortGridFlat ∧
    (tickWith shortGridFlat runningCtl).state = shortGridFlat ∧
    (tickWith shortGridFlat runningCtl).autoRunning = true ∧
    (tickWith shortGridFlat runningCtl).intervalId = some firstHandle ∧
    (tickWith shortGridFlat runningCtl).timers = [⟨firstHandle, 400⟩] :=
  have h := thrown_render_skips_terminal_test (timerFire firstHandle runningCtl)
    shortGridFlat undefinedRead (by decide) (tickWith shortGridFlat runningCtl) (Or.inr rfl)
  ⟨by decide, h.1, h.2.2.1.trans (by decide), h.2.2.2.1.trans (by decide),
    h.2.2.2.2.1.trans (by decide)⟩

end AgenteAspiradora
